import Mathlib

/-!
# Verification of the Flow-Weaver automation pipeline

Shallow embedding of the parts of `src/app.py` and `src/database.py` that the
verified properties talk about: the intent / builder / architect agents and
their deterministic post-processing, the keyword fallback detector, the
credential registry, the currency-rate cache, the integration reconciler, the
automation-creation endpoint, the flow import/export round-trip, and the
visual-editor project executor.

Modelling conventions:
* Python dicts coming back from the generation gateway become structures with
  `Option` fields (`none` = key absent); an exception from the gateway is the
  `GenOutcome.fail` constructor.
* `os.environ.get(key)` truthiness is modelled by `Env : String → Bool`.
* Python `str.lower()` is the per-character `Char.toLower` map, and the `in`
  operator on strings is contiguous-sublist containment.
* `list(set(xs))` returns its elements in an unspecified order; it is modelled
  by `List.dedup`, and properties about it are stated up to set membership.
* Clock readings (`datetime.now()`) are explicit parameters; elapsed seconds
  are integers.
* Network calls (generation backend, currency providers, Telegram) are oracle
  parameters describing the one response the code would have received.
-/

namespace FlowWeaver

/-! ## String helpers with Python semantics -/

/-- Python `str.lower()`: character-by-character lowercasing. -/
def pyLower (s : String) : String := String.mk (s.data.map Char.toLower)

/-- `listHasPrefixAt hay pat`: `pat` is a prefix of `hay`. -/
def listHasPrefixAt : List Char → List Char → Bool
  | _, [] => true
  | [], _ :: _ => false
  | c :: cs, p :: ps => c == p && listHasPrefixAt cs ps

/-- Contiguous-sublist containment on character lists. -/
def listContainsSub (hay pat : List Char) : Bool :=
  match hay with
  | [] => listHasPrefixAt [] pat
  | _ :: rest => listHasPrefixAt hay pat || listContainsSub rest pat

/-- Python `pat in s` for strings. -/
def strIn (pat s : String) : Bool := listContainsSub s.data pat.data

/-- The credential environment: `env key = true` iff `os.environ.get(key)` is
set and non-empty (Python truthiness). -/
def Env : Type := String → Bool

/-! ## Credential registry (`INTEGRATION_CREDENTIALS`, app.py lines 40-102)

Each entry is `(integration id, display name, required secret keys)`.  The
instruction texts, docs URLs and notes are pass-through strings that no
verified property reads, so they are omitted from the embedding. -/

def INTEGRATION_CREDENTIALS : List (String × String × List String) :=
  [("telegram", "Telegram Bot", ["TELEGRAM_BOT_TOKEN", "TELEGRAM_CHAT_ID"]),
   ("whatsapp", "WhatsApp Business API", ["WHATSAPP_API_KEY", "WHATSAPP_PHONE_ID"]),
   ("email", "Email (SMTP)", ["SMTP_SERVER", "SMTP_PORT", "SMTP_USER", "SMTP_PASSWORD"]),
   ("slack", "Slack", ["SLACK_BOT_TOKEN", "SLACK_CHANNEL_ID"]),
   ("currency_api", "API de Cotações (AwesomeAPI)", []),
   ("gold_api", "API de Ouro/Commodities", ["GOLD_API_KEY"]),
   ("postgresql", "PostgreSQL", ["DATABASE_URL"])]

/-- One entry of the `required_credentials` list built by
`get_required_credentials` (app.py lines 479-496). -/
structure CredInfo where
  integration : String
  name : String
  keys : List String
  configured : Bool
deriving DecidableEq, Repr

/-- Dictionary lookup `INTEGRATION_CREDENTIALS[integration_lower]`. -/
def lookupIntegration (s : String) : Option (String × List String) :=
  (INTEGRATION_CREDENTIALS.find? (fun e => e.1 == s)).map (fun e => e.2)

/-- `get_required_credentials` (app.py lines 479-496): look each integration up
in the static registry, skipping unknown ids; `configured` is true iff every
required key is present in the environment. -/
def get_required_credentials (env : Env) (integrations : List String) : List CredInfo :=
  integrations.flatMap (fun integ =>
    match lookupIntegration (pyLower integ) with
    | none => []
    | some (nm, ks) =>
      [{ integration := pyLower integ
         name := nm
         keys := ks
         configured := if ks.isEmpty then true else ks.all env }])

/-! ## Keyword fallback detector (`detect_integrations_from_prompt`,
app.py lines 552-574) -/

def keyword_map : List (String × List String) :=
  [("telegram", ["telegram", "bot telegram", "telegrama"]),
   ("whatsapp", ["whatsapp", "whats", "zap", "zapzap"]),
   ("email", ["email", "e-mail", "enviar email", "smtp"]),
   ("slack", ["slack"]),
   ("currency_api", ["dólar", "dolar", "euro", "moeda", "cotação", "cotacao", "câmbio", "cambio", "real"]),
   ("gold_api", ["ouro", "prata", "commodities", "commodity", "gold"]),
   ("postgresql", ["postgres", "postgresql", "banco de dados", "database", "db"])]

/-- For each integration of the keyword table, append it (once) if any of its
keywords occurs in the lowercased prompt.  The `break` after the first matching
keyword in the source only exits the inner loop, so it is equivalent to the
`any` below. -/
def detect_integrations_from_prompt (prompt : String) : List String :=
  let promptLower := pyLower prompt
  keyword_map.foldl
    (fun detected e =>
      if e.2.any (fun kw => strIn kw promptLower) && !(detected.contains e.1)
      then detected ++ [e.1] else detected) []

/-! ## Gateway outcomes and the intent agent (`agent_intent`,
app.py lines 577-662) -/

/-- Outcome of one `call_gemini_json` call: either the call raised
(backend exception or unparsable text) or it produced a parsed object. -/
inductive GenOutcome (A : Type)
  | fail
  | ok (response : A)
deriving DecidableEq, Repr

/-- A JSON field that is expected to hold a list of strings: it can be absent,
present but not a list, or an actual list. -/
inductive JsonList
  | missing
  | notList
  | ok (l : List String)
deriving DecidableEq, Repr

/-- The parsed model response consumed by `agent_intent`.  `none` means the
key is absent from the returned JSON object.  JSON `null` for `output_format`
is collapsed into `none` (no verified property distinguishes them). -/
structure IntentResp where
  objective : Option String := none
  output_type : Option String := none
  output_format : Option String := none
  integrations : JsonList := JsonList.missing
  needs_credentials : Option Bool := none
  summary : Option String := none
  action_type : Option String := none
  complexity : Option String := none
deriving DecidableEq, Repr

/-- The structured intent returned by `agent_intent`.  `action_type` and
`complexity` are `Option` because `get_default_intent` builds a dict without
those keys (the fallback branch then adds `action_type` but never
`complexity`). -/
structure Intent where
  objective : String
  output_type : String
  output_format : Option String := none
  integrations : List String
  needs_credentials : Bool
  required_credentials : List CredInfo
  summary : String
  action_type : Option String := none
  complexity : Option String := none
deriving DecidableEq, Repr

/-- `get_default_intent` (app.py lines 514-523). -/
def get_default_intent : Intent :=
  { objective := "Não foi possível identificar o objetivo"
    output_type := "file"
    output_format := none
    integrations := []
    needs_credentials := false
    required_credentials := []
    summary := "Erro ao processar intenção" }

/-- Python `list(set(l))` up to the (unspecified) iteration order of the set. -/
def pySetList (l : List String) : List String := l.dedup

/-- The model-declared integrations after the coercion and lowercasing steps of
`agent_intent`: a non-list value is replaced by `[]`, then each entry is
lowercased. -/
def model_declared_integrations (r : IntentResp) : List String :=
  (match r.integrations with
   | JsonList.ok l => l
   | _ => []).map pyLower

/-- `agent_intent` (app.py lines 577-662).  On a parsed response: fill missing
required fields with their defaults, coerce `integrations` to a list, union the
lowercased model integrations with the keyword-detected ones, compute
`required_credentials`, and force `needs_credentials` to true when any resolved
integration declares at least one key.  On gateway failure: deterministic
fallback built from keyword detection alone. -/
def agent_intent (env : Env) (prompt : String) (gw : GenOutcome IntentResp) : Intent :=
  let detected_by_keywords := detect_integrations_from_prompt prompt
  match gw with
  | GenOutcome.ok r =>
      let all_integrations :=
        pySetList (model_declared_integrations r ++ detected_by_keywords)
      let required :=
        if all_integrations.isEmpty then []
        else get_required_credentials env all_integrations
      let needs0 := r.needs_credentials.getD false
      let needs :=
        if !all_integrations.isEmpty && required.any (fun c => !c.keys.isEmpty)
        then true else needs0
      { objective := r.objective.getD "Não especificado"
        output_type := r.output_type.getD "file"
        output_format := r.output_format
        integrations := all_integrations
        needs_credentials := needs
        required_credentials := required
        summary := r.summary.getD "Processamento de fluxo"
        action_type := some (r.action_type.getD "transformacao")
        complexity := some (r.complexity.getD "media") }
  | GenOutcome.fail =>
      let base := get_default_intent
      if detected_by_keywords.isEmpty then
        { base with
            objective := prompt.take 150
            summary := "Processar: " ++ prompt.take 60
            action_type := some "transformacao" }
      else
        { base with
            objective := prompt.take 150
            summary := "Processar: " ++ prompt.take 60
            action_type := some "hibrido"
            integrations := detected_by_keywords
            required_credentials := get_required_credentials env detected_by_keywords
            needs_credentials :=
              (get_required_credentials env detected_by_keywords).any
                (fun c => !c.keys.isEmpty) }

/-! ## Flows and the builder agent (`agent_builder`, app.py lines 665-750) -/

/-- A flow node as a JSON dict with optional keys.  Config values are an
association list of string keys to string-or-null values (the only shapes the
code ever writes). -/
structure BNode where
  id : Option String := none
  type : Option String := none
  name : Option String := none
  config : Option (List (String × Option String)) := none
  next : Option (List String) := none
deriving DecidableEq, Repr

/-- A connection dict.  `src`/`dst` model the JSON keys `"from"`/`"to"`
(`from` is a reserved word in Lean). -/
structure Connection where
  src : Option String := none
  dst : Option String := none
  label : Option String := none
deriving DecidableEq, Repr

/-- The fully populated flow produced by `agent_builder`. -/
structure Flow where
  name : String
  description : String
  nodes : List BNode
  connections : List Connection
deriving DecidableEq, Repr

/-- The `nodes` field of a builder model response: absent, not a list, or a
list of node dicts. -/
inductive NodesField
  | missing
  | notList
  | ok (l : List BNode)
deriving DecidableEq, Repr

/-- Parsed model response consumed by `agent_builder`. -/
structure BuilderResp where
  name : Option String := none
  description : Option String := none
  nodes : NodesField := NodesField.missing
  connections : Option (List Connection) := none
deriving DecidableEq, Repr

/-- `get_default_flow` (app.py lines 526-539).  The `intent.get(...)` defaults
for `summary` and `objective` never fire because `agent_intent` always
populates those keys; JSON-null `output_format` is collapsed into the
`"json"` default together with the absent case. -/
def get_default_flow (intent : Intent) : Flow :=
  { name := "Fluxo padrão"
    description := intent.summary
    nodes :=
      [{ id := some "node_1", type := some "trigger", name := some "Início",
         config := some [], next := some ["node_2"] },
       { id := some "node_2", type := some "process", name := some "Processamento",
         config := some [("action", some intent.objective)], next := some ["node_3"] },
       { id := some "node_3", type := some "output", name := some "Saída",
         config := some [("format", some (intent.output_format.getD "json")),
                         ("destination", some "local")],
         next := some [] }]
    connections :=
      [{ src := some "node_1", dst := some "node_2" },
       { src := some "node_2", dst := some "node_3" }] }

/-- `any(n.get("type") == ty for n in nodes)`. -/
def flowHasType (nodes : List BNode) (ty : String) : Bool :=
  nodes.any (fun n => decide (n.type = some ty))

/-- The synthetic trigger node prepended when the model output has none
(app.py line 730); its `next` points at the former first node. -/
def builder_trigger_node (firstId : Option String) : BNode :=
  { id := some "node_trigger", type := some "trigger", name := some "Início",
    config := some [], next := some [firstId.getD "node_1"] }

/-- The synthetic output node appended when the model output has none
(app.py line 733). -/
def builder_output_node : BNode :=
  { id := some "node_output", type := some "output", name := some "Saída",
    config := some [], next := some [] }

/-- Repoint the last node's `next` to the synthetic output node, guarded by
`"next" in last_node` (app.py lines 734-735).  The dict-truthiness conjunct
`last_node and` is subsumed: a dict containing `"next"` is non-empty. -/
def repointLastNext : List BNode → List BNode
  | [] => []
  | [n] => [if n.next.isSome then { n with next := some ["node_output"] } else n]
  | n :: rest => n :: repointLastNext rest

/-- `agent_builder` (app.py lines 665-750): on gateway failure or a response
without a non-empty `nodes` list, return the default flow; otherwise insert a
synthetic trigger ahead and/or a synthetic output behind as needed and fill
the remaining fields with derived defaults. -/
def agent_builder (intent : Intent) (gw : GenOutcome BuilderResp) : Flow :=
  match gw with
  | GenOutcome.fail => get_default_flow intent
  | GenOutcome.ok r =>
      match r.nodes with
      | NodesField.missing => get_default_flow intent
      | NodesField.notList => get_default_flow intent
      | NodesField.ok [] => get_default_flow intent
      | NodesField.ok (n0 :: rest) =>
          let ns := n0 :: rest
          let has_trigger := flowHasType ns "trigger"
          let has_output := flowHasType ns "output"
          let ns1 := if has_trigger then ns else builder_trigger_node n0.id :: ns
          let ns2 := if has_output then ns1
                     else repointLastNext ns1 ++ [builder_output_node]
          { name :=
              match r.name with
              | some nm => if nm = "" then intent.summary.take 50 else nm
              | none => intent.summary.take 50
            description :=
              match r.description with
              | some d => if d = "" then intent.objective.take 200 else d
              | none => intent.objective.take 200
            nodes := ns2
            connections := r.connections.getD [] }

/-! ## The architect agent (`agent_architect`, app.py lines 753-847) -/

/-- Parsed model response consumed by `agent_architect`. -/
structure ArchResp where
  approved : Option Bool := none
  errors : Option (List String) := none
  warnings : Option (List String) := none
  score : Option Int := none
  recommendation : Option String := none
deriving DecidableEq, Repr

/-- The validation object. -/
structure Validation where
  approved : Bool
  errors : List String
  warnings : List String
  score : Int
  recommendation : String
deriving DecidableEq, Repr

/-- `get_default_validation` (app.py lines 542-549). -/
def get_default_validation (approved : Bool) : Validation :=
  { approved := approved
    errors := if approved then [] else ["Erro ao validar fluxo"]
    warnings := []
    score := if approved then 80 else 0
    recommendation := if approved then "Fluxo processado" else "Revisar fluxo" }

/-- The deterministic structural check used when `approved` is absent and in
the total-failure fallback: trigger present, output present, at least two
nodes (app.py lines 807-809 and 844-846; the `if nodes else False` guards
coincide with `any` on the empty list). -/
def structuralApproved (nodes : List BNode) : Bool :=
  flowHasType nodes "trigger" && flowHasType nodes "output" && decide (2 ≤ nodes.length)

/-- `agent_architect` (app.py lines 753-847).  On a parsed response, absent
fields are filled deterministically.  Pitfall modelled faithfully: when the
final `approved` is false and `recommendation` is absent, the code evaluates
`result.get("errors", [...])[0]` on the already-defaulted `errors` list;
if that list is empty this raises `IndexError`, the outer `except` catches it,
and the whole computed result is discarded in favour of
`get_default_validation(structural check)`. -/
def agent_architect (flow : Flow) (gw : GenOutcome ArchResp) : Validation :=
  let nodes := flow.nodes
  match gw with
  | GenOutcome.fail => get_default_validation (structuralApproved nodes)
  | GenOutcome.ok r =>
      let approved := r.approved.getD (structuralApproved nodes)
      let errors := r.errors.getD []
      let warnings := r.warnings.getD []
      let score : Int :=
        match r.score with
        | some s => s
        | none =>
            if approved then
              max 60 (min 100 (85 - (if 2 < warnings.length then 10 else 0)
                                  - (if 8 < nodes.length then 5 else 0)))
            else if errors.length ≤ 1 then 55 else 40
      if !approved && errors.isEmpty && r.recommendation.isNone then
        get_default_validation (structuralApproved nodes)
      else
        { approved := approved
          errors := errors
          warnings := warnings
          score := score
          recommendation :=
            match r.recommendation with
            | some rec => rec
            | none =>
                if approved then
                  if 80 ≤ score then "Fluxo aprovado e pronto para execução"
                  else "Fluxo aprovado com ressalvas"
                else "Revisar: " ++ errors.headD "Revisar estrutura do fluxo" }

/-! ## Currency rate provider (`fetch_currency_rates`, app.py lines 138-170)

The payload parsed out of a provider response is abstracted as a type
parameter `A` (its values hold floats that no verified property computes
with); a result is the usual `{"success": ..., "data"/"error": ...}` dict. -/

inductive CurrResult (A : Type)
  | success (data : A)
  | failure (error : String)
deriving DecidableEq, Repr

def CurrResult.isSuccess {A : Type} : CurrResult A → Bool
  | CurrResult.success _ => true
  | CurrResult.failure _ => false

/-- The process-wide `CURRENCY_CACHE` dict.  The `key` slot is only created on
the first successful store (`CURRENCY_CACHE.get("key")` tolerates its
absence); the unused `last_request` slot is omitted.  The `data` slot holds the
entire last successful result dict. -/
structure CurrencyCache (A : Type) where
  data : Option (CurrResult A) := none
  timestamp : Option Int := none
  ttl : Int := 300
  key : Option String := none
deriving DecidableEq, Repr

/-- Stable insertion into a sorted list of strings (code-point order, as
Python `sorted` on strings). -/
def insertStr (s : String) : List String → List String
  | [] => [s]
  | t :: ts => if s ≤ t then s :: t :: ts else t :: insertStr s ts

/-- Python `sorted` on a list of strings. -/
def pySortedStrings : List String → List String
  | [] => []
  | s :: ss => insertStr s (pySortedStrings ss)

def default_currencies : List String := ["USD-BRL", "EUR-BRL", "BTC-BRL"]

/-- Result of one `fetch_currency_rates` call: the returned dict, the cache
after the call, and whether any upstream provider was contacted. -/
structure CurrencyFetch (A : Type) where
  result : CurrResult A
  cache : CurrencyCache A
  providerCalled : Bool
deriving DecidableEq, Repr

/-- `fetch_currency_rates` (app.py lines 138-170).  `bcb` is the outcome
`_fetch_from_bcb()` would produce and `awesome` the outcome
`_fetch_from_awesome_api(currencies)` would produce; `now` is the clock
reading (in seconds).  A fresh cache hit requires data and timestamp present,
exact key match, and age under TTL; on a miss the providers are consulted in
order; a success repopulates the cache; if both providers fail, any previous
cache value (regardless of key or age) is served as last resort. -/
def fetch_currency_rates {A : Type} (bcb : CurrResult A)
    (awesome : List String → CurrResult A) (cache : CurrencyCache A)
    (now : Int) (currencies : Option (List String)) : CurrencyFetch A :=
  let currs := currencies.getD default_currencies
  let cache_key := String.intercalate "," (pySortedStrings currs)
  let hit : Option (CurrResult A) :=
    match cache.data, cache.timestamp with
    | some d, some t =>
        if cache.key = some cache_key ∧ now - t < cache.ttl then some d else none
    | _, _ => none
  match hit with
  | some d => { result := d, cache := cache, providerCalled := false }
  | none =>
      let r1 := bcb
      let result := if r1.isSuccess then r1 else awesome currs
      if result.isSuccess then
        { result := result
          cache := { data := some result, timestamp := some now,
                     ttl := cache.ttl, key := some cache_key }
          providerCalled := true }
      else
        match cache.data with
        | some d => { result := d, cache := cache, providerCalled := true }
        | none => { result := result, cache := cache, providerCalled := true }

/-! ## Telegram sending (`send_telegram_message`, app.py lines 315-337) -/

/-- Network outcome of the Telegram `sendMessage` POST. -/
inductive TgSendNet
  | ok
  | httpError (description : String)
  | networkError (msg : String)
deriving DecidableEq, Repr

/-- The dict returned by `send_telegram_message`. -/
inductive TgSendResult
  | sent
  | failed (error : String)
deriving DecidableEq, Repr

/-- `send_telegram_message` (app.py lines 315-337); explicit token/chat
arguments are never passed by the callers we model, so only the environment
lookup appears.  On HTTP 200 it reports success; a non-200 status surfaces the
provider's error description; a raised exception surfaces its message. -/
def send_telegram_message (env : Env) (net : TgSendNet) : TgSendResult :=
  if !(env "TELEGRAM_BOT_TOKEN") || !(env "TELEGRAM_CHAT_ID") then
    TgSendResult.failed "TELEGRAM_BOT_TOKEN ou TELEGRAM_CHAT_ID não configurados"
  else
    match net with
    | TgSendNet.ok => TgSendResult.sent
    | TgSendNet.httpError d => TgSendResult.failed d
    | TgSendNet.networkError m => TgSendResult.failed m

/-! ## Integration reconciler (`validate_integrations`, app.py lines 246-312) -/

/-- One entry of the reconciler's `details` list. -/
structure IntegrationDetail where
  integration : String
  status : String
  message : String
deriving DecidableEq, Repr

/-- The reconciler's accumulated result dict. -/
structure ValidationResults where
  all_valid : Bool
  details : List IntegrationDetail
  warnings : List String
  fixes_applied : List String
deriving DecidableEq, Repr

/-- The detail row written when `telegram` is declared but a credential is
missing (app.py lines 276-282). -/
def telegram_missing_detail : IntegrationDetail :=
  { integration := "telegram", status := "error",
    message := "Credenciais não configuradas" }

/-- Network outcome of the Telegram `getMe` probe. -/
inductive TelegramProbe
  | botOk (username : String)
  | botNotOk
  | httpError (code : Int)
  | networkError (msg : String)
deriving DecidableEq, Repr

/-- One iteration of the reconciler loop.  `curr` is the result
`fetch_currency_rates()` would return at this point (its cache side effect is
irrelevant to every verified property and not threaded); `tg` is the `getMe`
probe outcome.  Integrations other than `currency_api` and `telegram` are not
probed. -/
def validate_integrations_step {A : Type} (env : Env) (curr : CurrResult A)
    (tg : TelegramProbe) (st : ValidationResults) (integration : String) :
    ValidationResults :=
  if integration = "currency_api" then
    match curr with
    | CurrResult.success _ =>
        { st with details := st.details ++
            [{ integration := "currency_api", status := "ok",
               message := "API de cotações funcionando" }] }
    | CurrResult.failure e =>
        { st with
            warnings := st.warnings ++ ["API de cotações: " ++ e]
            fixes_applied := st.fixes_applied ++
              ["Cache e fallback de APIs configurados automaticamente"] }
  else if integration = "telegram" then
    if !(env "TELEGRAM_BOT_TOKEN") || !(env "TELEGRAM_CHAT_ID") then
      { st with
          all_valid := false
          details := st.details ++ [telegram_missing_detail] }
    else
      match tg with
      | TelegramProbe.botOk username =>
          { st with details := st.details ++
              [{ integration := "telegram", status := "ok",
                 message := "Bot @" ++ username ++ " conectado" }] }
      | TelegramProbe.botNotOk =>
          { st with
              all_valid := false
              details := st.details ++
                [{ integration := "telegram", status := "error",
                   message := "Token inválido" }] }
      | TelegramProbe.httpError code =>
          { st with
              all_valid := false
              details := st.details ++
                [{ integration := "telegram", status := "error",
                   message := "Erro ao validar bot: " ++ toString code }] }
      | TelegramProbe.networkError msg =>
          { st with warnings := st.warnings ++
              ["Telegram: não foi possível validar (" ++ msg ++ ")"] }
  else st

/-- `validate_integrations` (app.py lines 246-312). -/
def validate_integrations {A : Type} (env : Env) (curr : CurrResult A)
    (tg : TelegramProbe) (integrations : List String) : ValidationResults :=
  integrations.foldl (validate_integrations_step env curr tg)
    { all_valid := true, details := [], warnings := [], fixes_applied := [] }

/-! ## `/generate-flow` reconciliation tail (app.py lines 998-1039) -/

/-- The validation object after the reconciler output has been merged in. -/
structure MergedValidation where
  approved : Bool
  errors : List String
  warnings : List String
  score : Int
  recommendation : String
  fixes_applied : Option (List String)
  integration_status : List IntegrationDetail
deriving DecidableEq, Repr

/-- Lines 1003-1012 of app.py: reconciler warnings and fixes are appended
(fixes only when non-empty, matching the `if` guards); messages of
error-status details are appended to `errors` only when `all_valid` is false;
`approved` is never touched. -/
def mergeValidation (v : Validation) (check : ValidationResults) : MergedValidation :=
  { approved := v.approved
    errors :=
      if check.all_valid then v.errors
      else v.errors ++
        (check.details.filter (fun d => decide (d.status = "error"))).map (fun d => d.message)
    warnings := if check.warnings.isEmpty then v.warnings else v.warnings ++ check.warnings
    score := v.score
    recommendation := v.recommendation
    fixes_applied := if check.fixes_applied.isEmpty then none else some check.fixes_applied
    integration_status := check.details }

/-- The HTTP response of `/generate-flow`: the approved shape exposes only
score/warnings/recommendation/integration_status/fixes_applied of the
validation; the rejected shape carries the errors and the full merged
validation. -/
inductive GenFlowResponse
  | approvedResp (intent : Intent) (flow : Flow) (score : Int)
      (warnings : List String) (recommendation : String)
      (integration_status : List IntegrationDetail) (fixes_applied : List String)
  | rejectedResp (errors : List String) (intent : Intent) (flow : Flow)
      (validation : MergedValidation)
deriving DecidableEq, Repr

def GenFlowResponse.status : GenFlowResponse → String
  | GenFlowResponse.approvedResp .. => "approved"
  | GenFlowResponse.rejectedResp .. => "rejected"

def GenFlowResponse.integrationStatus : GenFlowResponse → List IntegrationDetail
  | GenFlowResponse.approvedResp _ _ _ _ _ is _ => is
  | GenFlowResponse.rejectedResp _ _ _ mv => mv.integration_status

/-- The tail of the `/generate-flow` route (app.py lines 998-1039) once the
three agents have produced `intent`, `flow` and `validation`: run the
reconciler over the intent's integrations, merge its output, and build the
response.  The learning-store append only allocates the `record_id` echoed
back; no verified property reads it, so it is omitted. -/
def generate_flow_finish {A : Type} (env : Env) (curr : CurrResult A)
    (tg : TelegramProbe) (intent : Intent) (flow : Flow)
    (validation : Validation) : GenFlowResponse :=
  let check := validate_integrations env curr tg intent.integrations
  let v := mergeValidation validation check
  if v.approved then
    GenFlowResponse.approvedResp intent flow v.score v.warnings v.recommendation
      check.details check.fixes_applied
  else
    GenFlowResponse.rejectedResp v.errors intent flow v

/-! ## Automations (`create_automation` / `execute_automation_task`,
app.py lines 340-380 and 1266-1334) -/

/-- The request's embedded flow object: the only key the automation endpoints
read from it is `"name"`; the rest is carried opaquely and omitted here. -/
structure ReqFlow where
  name : Option String := none
deriving DecidableEq, Repr

/-- The request's embedded intent object, restricted to the keys the
automation endpoints read (`required_credentials` at creation,
`integrations` at execution). -/
structure ReqIntent where
  required_credentials : List CredInfo := []
  integrations : List String := []
deriving DecidableEq, Repr

/-- One entry of an automation run's `results` list. -/
inductive TaskResult (A : Type)
  | currencyData (data : A)
  | currencyError (error : String)
  | telegramResult (r : TgSendResult)
deriving DecidableEq, Repr

/-- An automation record.  `last_results` is absent until the first run. -/
structure Automation (A : Type) where
  id : String
  name : String
  flow : ReqFlow
  intent : ReqIntent
  interval_minutes : Int
  created_at : String
  run_count : Int
  last_run : Option String
  last_results : Option (List (TaskResult A)) := none
deriving DecidableEq, Repr

/-- Association-list read (Python dict lookup). -/
def dictGet {B : Type} (l : List (String × B)) (k : String) : Option B :=
  (l.find? (fun e => e.1 == k)).map (fun e => e.2)

/-- Association-list write (Python `d[k] = v`): replace in place or append. -/
def dictSet {B : Type} (l : List (String × B)) (k : String) (v : B) :
    List (String × B) :=
  if (l.find? (fun e => e.1 == k)).isSome then
    l.map (fun e => if e.1 == k then (k, v) else e)
  else l ++ [(k, v)]

/-- The process state the automation endpoints touch: the in-memory
`ACTIVE_AUTOMATIONS` registry, the persisted `active_automations.json`
mirror, the scheduler's job table (id to interval minutes), and the currency
cache. -/
structure AppState (A : Type) where
  active : List (String × Automation A)
  savedFile : List (String × Automation A)
  jobs : List (String × Int)
  cache : CurrencyCache A
deriving DecidableEq, Repr

/-- `execute_automation_task` (app.py lines 340-380): look the automation up
(silently return when unknown), fetch rates if `currency_api` is declared,
send a Telegram message if `telegram` is declared and some result exists,
bump `run_count`/`last_run`/`last_results` in memory, and mirror only
`run_count`/`last_run` into the persisted copy when one exists.  The message
text built by `format_automation_message` only goes over the wire (the
`tgNet` oracle already answers it), so its float formatting is not modelled. -/
def execute_automation_task {A : Type} (env : Env) (bcb : CurrResult A)
    (awesome : List String → CurrResult A) (tgNet : TgSendNet)
    (nowIso : String) (now : Int) (auto_id : String) (st : AppState A) :
    AppState A :=
  match dictGet st.active auto_id with
  | none => st
  | some automation =>
      let integrations := automation.intent.integrations
      let step1 : List (TaskResult A) × AppState A :=
        if integrations.contains "currency_api" then
          let f := fetch_currency_rates bcb awesome st.cache now none
          match f.result with
          | CurrResult.success d =>
              ([TaskResult.currencyData d], { st with cache := f.cache })
          | CurrResult.failure e =>
              ([TaskResult.currencyError e], { st with cache := f.cache })
        else ([], st)
      let results := step1.1
      let st1 := step1.2
      let results :=
        if integrations.contains "telegram" && !results.isEmpty then
          results ++ [TaskResult.telegramResult (send_telegram_message env tgNet)]
        else results
      let automation2 := { automation with
        last_run := some nowIso
        run_count := automation.run_count + 1
        last_results := some results }
      let saved2 :=
        match dictGet st1.savedFile auto_id with
        | none => st1.savedFile
        | some savedAuto =>
            dictSet st1.savedFile auto_id
              { savedAuto with last_run := some nowIso,
                               run_count := automation2.run_count }
      { st1 with active := dictSet st1.active auto_id automation2,
                 savedFile := saved2 }

/-- A `POST /automations` request body. -/
structure CreateReq where
  flow : Option ReqFlow := none
  intent : ReqIntent := {}
  interval_minutes : Int := 60
  auto_start : Bool := true
deriving DecidableEq, Repr

/-- The `POST /automations` response: 400 without a flow, 400 listing the
missing credential keys, or success echoing the new id and interval. -/
inductive CreateResp
  | badRequestNoFlow
  | badRequestMissingCreds (missing : List String)
  | created (auto_id : String) (interval_minutes : Int)
deriving DecidableEq, Repr

/-- The missing-credentials scan of `create_automation` (app.py lines
1282-1287): every declared required key absent from the environment, in
declaration order, duplicates kept. -/
def missing_credential_keys (env : Env) (required : List CredInfo) : List String :=
  required.flatMap (fun cred => cred.keys.filter (fun k => !(env k)))

/-- `create_automation` (app.py lines 1266-1334).  `nowStamp` is the
`%Y%m%d%H%M%S` clock reading used in the id, `nowIso` the ISO timestamp.
A request with any missing credential key is rejected before the id is
allocated, before the registries are touched, and before any job is
scheduled.  With `auto_start` the job is registered (replacing any job under
the same id) and the task runs once synchronously. -/
def create_automation {A : Type} (env : Env) (bcb : CurrResult A)
    (awesome : List String → CurrResult A) (tgNet : TgSendNet)
    (nowStamp nowIso : String) (now : Int) (st : AppState A)
    (req : CreateReq) : CreateResp × AppState A :=
  match req.flow with
  | none => (CreateResp.badRequestNoFlow, st)
  | some flow =>
      let missing := missing_credential_keys env req.intent.required_credentials
      if !missing.isEmpty then
        (CreateResp.badRequestMissingCreds missing, st)
      else
        let auto_id := "auto_" ++ nowStamp ++ "_" ++ toString st.active.length
        let automation : Automation A :=
          { id := auto_id
            name := flow.name.getD "Automação"
            flow := flow
            intent := req.intent
            interval_minutes := req.interval_minutes
            created_at := nowIso
            run_count := 0
            last_run := none }
        let st1 := { st with active := dictSet st.active auto_id automation,
                             savedFile := dictSet st.savedFile auto_id automation }
        let st2 :=
          if req.auto_start then
            execute_automation_task env bcb awesome tgNet nowIso now auto_id
              { st1 with jobs := dictSet st1.jobs auto_id req.interval_minutes }
          else st1
        (CreateResp.created auto_id req.interval_minutes, st2)

/-! ## Visual-editor persistence model (database.py) and flow import
(`api_import_flow`, app.py lines 1803-2022) -/

/-- A `workflow_nodes` row.  The config column holds JSON text or NULL; its
parsed shape differs per consumer, so it is a type parameter. -/
structure DBNode (C : Type) where
  node_id : String
  name : String
  node_type : String
  node_category : String
  position_x : Int
  position_y : Int
  config : Option C := none
  is_enabled : Bool := true
deriving DecidableEq, Repr

/-- A `workflow_edges` row (ports are constant `"output"`/`"input"` on every
write path we model and are omitted). -/
structure DBEdge where
  edge_id : String
  source_node_id : String
  target_node_id : String
  label : Option String := none
deriving DecidableEq, Repr

/-- A workflow project with its rows, in insertion order (canvas/zoom columns
and timestamps omitted: no verified property reads them). -/
structure Project (C : Type) where
  name : String
  description : String
  nodes : List (DBNode C)
  edges : List DBEdge
deriving DecidableEq, Repr

/-- A raw flow document as posted to `/api/projects/import-flow`. -/
structure FlowDoc where
  name : Option String := none
  description : Option String := none
  nodes : List BNode := []
  connections : List Connection := []
deriving DecidableEq, Repr

/-- `node_type.lower() if node_type else "manual"`. -/
def normalizeNodeType (t : String) : String :=
  if t = "" then "manual" else pyLower t

/-- The `type_map` of `get_editor_type` (app.py lines 1900-1949). -/
def editor_type_map : List (String × String) :=
  [("trigger", "manual"), ("start", "manual"), ("process", "transform"),
   ("output", "response"), ("result", "response"), ("return", "response"),
   ("integration", "http"), ("httprequest", "http"), ("request", "http"),
   ("api", "http"), ("fetch", "http"), ("get", "http"), ("post", "http"),
   ("put", "http"), ("delete", "http"), ("patch", "http"),
   ("if", "condition"), ("decision", "condition"), ("branch", "condition"),
   ("for", "loop"), ("while", "loop"), ("delay", "wait"),
   ("mail", "email"), ("smtp", "email"),
   ("db", "database"), ("sql", "database"), ("query", "database"),
   ("send", "telegram"), ("notify", "telegram"), ("notification", "telegram"),
   ("save", "file"), ("write", "file"), ("print", "log"),
   ("ai", "gemini"), ("gpt", "gemini"), ("openai", "gemini"),
   ("llm", "gemini"), ("generate", "gemini"), ("analyze", "gemini"),
   ("cron", "schedule"), ("interval", "schedule"),
   ("try", "error"), ("catch", "error"), ("read", "currency")]

/-- `get_editor_type` (app.py lines 1900-1949): unmapped types pass through
lowercased. -/
def get_editor_type (t : String) : String :=
  let lower := normalizeNodeType t
  (((editor_type_map.find? (fun e => e.1 == lower)).map (fun e => e.2)).getD lower)

/-- The `category_map` of `get_category_from_type` (app.py lines 1822-1898). -/
def category_map : List (String × String) :=
  [("trigger", "trigger"), ("manual", "trigger"), ("schedule", "trigger"),
   ("webhook", "trigger"), ("event", "trigger"), ("start", "trigger"),
   ("cron", "trigger"), ("interval", "trigger"),
   ("process", "data"), ("search", "data"), ("transform", "data"),
   ("filter", "data"), ("merge", "data"), ("split", "data"),
   ("currency", "data"), ("api", "data"), ("fetch", "data"),
   ("get", "data"), ("read", "data"),
   ("condition", "flow"), ("if", "flow"), ("decision", "flow"),
   ("branch", "flow"), ("loop", "flow"), ("foreach", "flow"),
   ("for", "flow"), ("while", "flow"), ("wait", "flow"),
   ("delay", "flow"), ("switch", "flow"), ("error", "flow"),
   ("try", "flow"), ("catch", "flow"),
   ("telegram", "action"), ("email", "action"), ("mail", "action"),
   ("smtp", "action"), ("slack", "action"), ("whatsapp", "action"),
   ("http", "action"), ("httprequest", "action"), ("request", "action"),
   ("post", "action"), ("put", "action"), ("delete", "action"),
   ("patch", "action"), ("database", "action"), ("db", "action"),
   ("sql", "action"), ("query", "action"), ("integration", "action"),
   ("send", "action"), ("notify", "action"), ("notification", "action"),
   ("output", "output"), ("file", "output"), ("save", "output"),
   ("write", "output"), ("response", "output"), ("return", "output"),
   ("result", "output"), ("log", "output"), ("print", "output"),
   ("gemini", "ai"), ("prompt", "ai"), ("ai", "ai"), ("gpt", "ai"),
   ("openai", "ai"), ("llm", "ai"), ("generate", "ai"), ("analyze", "ai")]

/-- `get_category_from_type` (app.py lines 1822-1898): unmapped types fall
back to `"data"`. -/
def get_category_from_type (t : String) : String :=
  let lower := normalizeNodeType t
  (((category_map.find? (fun e => e.1 == lower)).map (fun e => e.2)).getD "data")

/-- The `WorkflowNode.create` call of the import loop for the `i`-th node
(app.py lines 1951-1970 with database.py lines 438-450): default id
`node_i`, default name `Node i+1`, translated type and category, position
`(150 + 250 i, 200)`; an empty config dict is stored as NULL
(`json.dumps(config) if config else None`). -/
def import_node (i : Nat) (n : BNode) : DBNode (List (String × Option String)) :=
  let cfg := n.config.getD []
  { node_id := n.id.getD ("node_" ++ toString i)
    name := n.name.getD ("Node " ++ toString (i + 1))
    node_type := get_editor_type (n.type.getD "manual")
    node_category := get_category_from_type (n.type.getD "manual")
    position_x := 150 + 250 * (i : Int)
    position_y := 200
    config := if cfg.isEmpty then none else some cfg
    is_enabled := true }

/-- The node-import loop `for i, node in enumerate(nodes)` starting at index
`i`: one `workflow_nodes` row per flow node, in order. -/
def import_nodes_from (i : Nat) :
    List BNode → List (DBNode (List (String × Option String)))
  | [] => []
  | n :: rest => import_node i n :: import_nodes_from (i + 1) rest

/-- The existence test `SELECT id FROM workflow_edges WHERE project_id = ?
AND source_node_id = ? AND target_node_id = ?` (app.py lines 1995-1999). -/
def hasPair (es : List DBEdge) (a b : String) : Bool :=
  es.any (fun e => decide (e.source_node_id = a ∧ e.target_node_id = b))

/-- The explicit-connections import loop (app.py lines 1972-1985): one edge
per connection whose `from` and `to` are both truthy; `i` is the running
`enumerate` index (incremented for skipped connections too). -/
def import_explicit_edges (i : Nat) : List Connection → List DBEdge
  | [] => []
  | c :: rest =>
      match c.src, c.dst with
      | some s, some t =>
          if s ≠ "" ∧ t ≠ "" then
            { edge_id := "edge_" ++ toString i, source_node_id := s,
              target_node_id := t, label := c.label } :: import_explicit_edges (i + 1) rest
          else import_explicit_edges (i + 1) rest
      | _, _ => import_explicit_edges (i + 1) rest

/-- The inner loop of the `next`-list import (app.py lines 1989-2007): for
the `j`-th successor id, if both ids are truthy and no edge with that
(source, target) pair exists yet, append one. -/
def add_next_edge_list (nid : String) (j : Nat) :
    List String → List DBEdge → List DBEdge
  | [], es => es
  | next_id :: rest, es =>
      if next_id ≠ "" ∧ hasPair es nid next_id = false then
        add_next_edge_list nid (j + 1) rest
          (es ++ [{ edge_id := "edge_next_" ++ nid ++ "_" ++ toString j,
                    source_node_id := nid, target_node_id := next_id,
                    label := none }])
      else add_next_edge_list nid (j + 1) rest es

/-- The outer loop of the `next`-list import (app.py lines 1987-2007): nodes
without a truthy id contribute nothing (`node.get("id")` has no default
here). -/
def add_next_edges_for_node (es : List DBEdge) (n : BNode) : List DBEdge :=
  match n.id with
  | none => es
  | some nid => if nid = "" then es else add_next_edge_list nid 0 (n.next.getD []) es

/-- `api_import_flow` (app.py lines 1803-2022) as a transformation from the
posted flow document to the stored project.  `intentSummary` is
`intent.get("summary")` of the posted intent, used only for the description
default. -/
def api_import_flow (fd : FlowDoc) (intentSummary : Option String) :
    Project (List (String × Option String)) :=
  { name := fd.name.getD "Fluxo Importado"
    description := fd.description.getD (intentSummary.getD "Fluxo gerado pela IA")
    nodes := import_nodes_from 0 fd.nodes
    edges := fd.nodes.foldl add_next_edges_for_node
      (import_explicit_edges 0 fd.connections) }

/-- Stable insertion by `position_x` (ties keep earlier elements first, as
Python's stable `sorted`). -/
def insertNodeByX {C : Type} (n : DBNode C) : List (DBNode C) → List (DBNode C)
  | [] => [n]
  | m :: ms =>
      if n.position_x ≤ m.position_x then n :: m :: ms else m :: insertNodeByX n ms

/-- `ORDER BY position_x` of `WorkflowProject.get_nodes` (database.py lines
353-358) and the `sorted(nodes, key=lambda n: n["position_x"])` of the
executor: a stable sort by `position_x`. -/
def sortNodesByX {C : Type} : List (DBNode C) → List (DBNode C)
  | [] => []
  | n :: ns => insertNodeByX n (sortNodesByX ns)

/-- An exported flow node as produced by `to_flow_json` (no `next` key). -/
structure ExportNode where
  id : String
  name : String
  type : String
  config : List (String × Option String)
deriving DecidableEq, Repr

/-- An exported connection (`from`/`to`/`label`, label defaulted to `""`). -/
structure ExportConn where
  src : String
  dst : String
  label : String
deriving DecidableEq, Repr

/-- An exported flow document. -/
structure ExportFlow where
  name : String
  description : String
  nodes : List ExportNode
  connections : List ExportConn
deriving DecidableEq, Repr

/-- `WorkflowProject.to_flow_json` (database.py lines 389-420): nodes in
`position_x` order with their stored id/name/type and parsed config (NULL
becomes the empty dict), connections straight off the edge rows with
`label or ""`. -/
def to_flow_json (p : Project (List (String × Option String))) : ExportFlow :=
  { name := p.name
    description := p.description
    nodes := (sortNodesByX p.nodes).map (fun n =>
      { id := n.node_id, name := n.name, type := n.node_type,
        config := n.config.getD [] })
    connections := p.edges.map (fun e =>
      { src := e.source_node_id, dst := e.target_node_id,
        label := e.label.getD "" }) }

/-! ## Project execution (`api_execute_project`, app.py lines 2258-2355) -/

/-- The parsed `config` JSON of a visual-editor node, restricted to the keys
the executor reads. -/
structure NodeConfig where
  count : Option Int := none
  condition : Option String := none
  seconds : Option Int := none
  message : Option String := none
deriving DecidableEq, Repr

/-- One entry of the executor's `results` list. -/
inductive ExecEntry (A : Type)
  | currency (node : String) (data : A)
  | telegram (node : String) (result : TgSendResult)
  | loop (node : String) (iterations : Int) (results : List String)
  | condition (node : String) (result : Bool)
  | wait (node : String) (seconds : Int)
  | log (node : String) (message : String)
  | generic (node : String) (node_type : String) (status : String)
deriving DecidableEq, Repr

/-- The dispatch table of the executor for a single enabled node (app.py
lines 2291-2341): produces the `results` entries, the `output_parts` lines,
and the currency cache after the node.  `render` stands for the float
formatting of the per-rate lines (`f"  {nome}: R$ {cotacao:.2f}"`), abstract
over the rates payload.  A failed currency fetch contributes an error line
and no results entry; a telegram node without credentials contributes a
not-configured line and no results entry; neither stops the run. -/
def project_exec_node {A : Type} (env : Env) (bcb : CurrResult A)
    (awesome : List String → CurrResult A) (tgNet : TgSendNet)
    (render : A → List String) (_projectName : String) (now : Int)
    (cache : CurrencyCache A) (n : DBNode NodeConfig) :
    List (ExecEntry A) × List String × CurrencyCache A :=
  let cfg := n.config.getD {}
  if n.node_type = "currency" then
    let f := fetch_currency_rates bcb awesome cache now none
    match f.result with
    | CurrResult.success d =>
        ([ExecEntry.currency n.name d],
         ("[" ++ n.name ++ "] Cotações obtidas com sucesso") :: render d,
         f.cache)
    | CurrResult.failure e =>
        ([], ["[" ++ n.name ++ "] Erro: " ++ e], f.cache)
  else if n.node_type = "telegram" then
    if env "TELEGRAM_BOT_TOKEN" && env "TELEGRAM_CHAT_ID" then
      match send_telegram_message env tgNet with
      | TgSendResult.sent =>
          ([ExecEntry.telegram n.name TgSendResult.sent],
           ["[" ++ n.name ++ "] Mensagem enviada ao Telegram"], cache)
      | TgSendResult.failed e =>
          ([ExecEntry.telegram n.name (TgSendResult.failed e)],
           ["[" ++ n.name ++ "] Erro Telegram: " ++ e], cache)
    else ([], ["[" ++ n.name ++ "] Telegram não configurado"], cache)
  else if n.node_type = "loop" then
    let count := cfg.count.getD 3
    ([ExecEntry.loop n.name count
        ((List.range count.toNat).map (fun i => "Iteração " ++ toString (i + 1)))],
     ["[" ++ n.name ++ "] Loop executado " ++ toString count ++ " vezes"], cache)
  else if n.node_type = "condition" then
    ([ExecEntry.condition n.name true],
     ["[" ++ n.name ++ "] Condição avaliada: " ++ cfg.condition.getD "true"], cache)
  else if n.node_type = "wait" then
    ([ExecEntry.wait n.name (cfg.seconds.getD 1)],
     ["[" ++ n.name ++ "] Aguardando " ++ toString (cfg.seconds.getD 1) ++ "s"], cache)
  else if n.node_type = "log" then
    ([ExecEntry.log n.name (cfg.message.getD "Log entry")],
     ["[" ++ n.name ++ "] " ++ cfg.message.getD "Log entry"], cache)
  else
    ([ExecEntry.generic n.name n.node_type "executed"],
     ["[" ++ n.name ++ "] Executado (" ++ n.node_type ++ ")"], cache)

/-- The executor loop over the (already sorted) node list, skipping disabled
nodes and threading the currency cache. -/
def project_exec_nodes {A : Type} (env : Env) (bcb : CurrResult A)
    (awesome : List String → CurrResult A) (tgNet : TgSendNet)
    (render : A → List String) (projectName : String) (now : Int) :
    List (DBNode NodeConfig) → CurrencyCache A → List (ExecEntry A) × List String
  | [], _ => ([], [])
  | n :: rest, cache =>
      if n.is_enabled then
        let step := project_exec_node env bcb awesome tgNet render projectName now cache n
        let tail := project_exec_nodes env bcb awesome tgNet render projectName now rest step.2.2
        (step.1 ++ tail.1, step.2.1 ++ tail.2)
      else project_exec_nodes env bcb awesome tgNet render projectName now rest cache

/-- The dead `intent` local of the route (app.py lines 2269-2280): collected
integration ids of the project's nodes, deduplicated.  Computed and never
used by the route. -/
def project_intent_integrations (nodes : List (DBNode NodeConfig)) : List String :=
  pySetList (nodes.foldl
    (fun acc n =>
      if ["telegram", "email", "slack", "whatsapp"].contains n.node_type then
        acc ++ [n.node_type]
      else if n.node_type == "currency" then acc ++ ["currency_api"]
      else acc) [])

/-- `api_execute_project` (app.py lines 2258-2355), reduced to its observable
run: sort the project's nodes by `position_x` and interpret them with the
dispatch table.  The response also echoes `to_flow_json` and bumps the
execution counter; no verified property reads those. -/
def api_execute_project {A : Type} (env : Env) (bcb : CurrResult A)
    (awesome : List String → CurrResult A) (tgNet : TgSendNet)
    (render : A → List String) (projectName : String) (now : Int)
    (nodes : List (DBNode NodeConfig)) (cache : CurrencyCache A) :
    List (ExecEntry A) × List String :=
  project_exec_nodes env bcb awesome tgNet render projectName now
    (sortNodesByX nodes) cache

/-- Spec-side executor, following the specification's words: process the
given (already position-ordered, already enabled-filtered) nodes one after
the other with the dispatch table, threading the currency cache, never
aborting.  `api_execute_project` is proved to refine this on the
position-sorted, enabled-filtered node list. -/
def spec_exec_enabled_in_order {A : Type} (env : Env) (bcb : CurrResult A)
    (awesome : List String → CurrResult A) (tgNet : TgSendNet)
    (render : A → List String) (projectName : String) (now : Int) :
    List (DBNode NodeConfig) → CurrencyCache A → List (ExecEntry A) × List String
  | [], _ => ([], [])
  | n :: rest, cache =>
      let step := project_exec_node env bcb awesome tgNet render projectName now cache n
      let tail := spec_exec_enabled_in_order env bcb awesome tgNet render projectName now
        rest step.2.2
      (step.1 ++ tail.1, step.2.1 ++ tail.2)

/-- The initial `CURRENCY_CACHE` dict (app.py lines 25-30): no data, no
timestamp, no key slot, TTL 300 seconds. -/
def initialCurrencyCache (A : Type) : CurrencyCache A := {}

/-! ## Claim theorems -/

/-- C4: if `fetch_currency_rates` is called on the pristine cache and
succeeds, then a second call with the same currency-pair list within the
300-second TTL contacts no upstream provider and returns exactly the first
call's result, leaving the cache untouched. -/
theorem C4_currency_cache_idempotent {A : Type} (bcb1 bcb2 : CurrResult A)
    (aw1 aw2 : List String → CurrResult A) (c : List String) (t1 t2 : Int)
    (hsucc : (fetch_currency_rates bcb1 aw1 (initialCurrencyCache A) t1
        (some c)).result.isSuccess = true)
    (hfresh : t2 - t1 < 300) :
    (fetch_currency_rates bcb2 aw2
        (fetch_currency_rates bcb1 aw1 (initialCurrencyCache A) t1 (some c)).cache
        t2 (some c)).result
      = (fetch_currency_rates bcb1 aw1 (initialCurrencyCache A) t1 (some c)).result ∧
    (fetch_currency_rates bcb2 aw2
        (fetch_currency_rates bcb1 aw1 (initialCurrencyCache A) t1 (some c)).cache
        t2 (some c)).providerCalled = false ∧
    (fetch_currency_rates bcb2 aw2
        (fetch_currency_rates bcb1 aw1 (initialCurrencyCache A) t1 (some c)).cache
        t2 (some c)).cache
      = (fetch_currency_rates bcb1 aw1 (initialCurrencyCache A) t1 (some c)).cache := by
  cases hB : (if bcb1.isSuccess then bcb1 else aw1 c).isSuccess with
  | false =>
      simp [fetch_currency_rates, initialCurrencyCache, hB] at hsucc
  | true =>
      simp only [fetch_currency_rates, initialCurrencyCache]
      simp [hB, hfresh]

/-- C4 witness: a concrete successful first call followed by a fresh second
call 100 seconds later. -/
theorem C4_currency_cache_idempotent_witness :
    (fetch_currency_rates (CurrResult.success "rates") (fun _ => CurrResult.failure "down")
        (initialCurrencyCache String) 0 (some ["USD-BRL"])).result.isSuccess = true ∧
    ((100 : Int) - 0 < 300) ∧
    (fetch_currency_rates (CurrResult.failure "down2") (fun _ => CurrResult.failure "down3")
        (fetch_currency_rates (CurrResult.success "rates") (fun _ => CurrResult.failure "down")
          (initialCurrencyCache String) 0 (some ["USD-BRL"])).cache
        100 (some ["USD-BRL"])).providerCalled = false :=
  ⟨by decide, by decide,
   (C4_currency_cache_idempotent (CurrResult.success "rates") (CurrResult.failure "down2")
      (fun _ => CurrResult.failure "down") (fun _ => CurrResult.failure "down3")
      ["USD-BRL"] 0 100 (by decide) (by decide)).2.1⟩

/-- C10: the last-resort stale path ignores the cache key: with the cache
holding data stored under key `keyA`, a request whose pair list hashes to a
different key misses the cache, and when both providers fail the cached data
for `keyA` is returned (not the providers' failure result), with the cache
left untouched. -/
theorem C10_stale_path_ignores_key {A : Type} (dataA : CurrResult A)
    (keyA : String) (tsA ttlA : Int) (bcb : CurrResult A)
    (awesome : List String → CurrResult A) (c : List String) (t : Int)
    (hbcb : bcb.isSuccess = false)
    (haw : (awesome c).isSuccess = false)
    (hkey : String.intercalate "," (pySortedStrings c) ≠ keyA) :
    (fetch_currency_rates bcb awesome
        { data := some dataA, timestamp := some tsA, ttl := ttlA, key := some keyA }
        t (some c)).result = dataA ∧
    (fetch_currency_rates bcb awesome
        { data := some dataA, timestamp := some tsA, ttl := ttlA, key := some keyA }
        t (some c)).providerCalled = true ∧
    (fetch_currency_rates bcb awesome
        { data := some dataA, timestamp := some tsA, ttl := ttlA, key := some keyA }
        t (some c)).cache
      = { data := some dataA, timestamp := some tsA, ttl := ttlA, key := some keyA } := by
  simp only [fetch_currency_rates, hbcb]
  simp [hbcb, haw, Ne.symm hkey]

/-- C10 witness: cache populated for `EUR-BRL`, request for `USD-BRL`, both
providers down. -/
theorem C10_stale_path_ignores_key_witness :
    (CurrResult.failure "down" : CurrResult String).isSuccess = false ∧
    ((fun _ => CurrResult.failure "down2" : List String → CurrResult String)
        ["USD-BRL"]).isSuccess = false ∧
    String.intercalate "," (pySortedStrings ["USD-BRL"]) ≠ "EUR-BRL" ∧
    (fetch_currency_rates (CurrResult.failure "down")
        (fun _ => CurrResult.failure "down2")
        { data := some (CurrResult.success "old-rates"), timestamp := some 0,
          ttl := 300, key := some "EUR-BRL" }
        1000 (some ["USD-BRL"])).result = CurrResult.success "old-rates" :=
  ⟨by decide, by decide, by decide,
   (C10_stale_path_ignores_key (CurrResult.success "old-rates") "EUR-BRL" 0 300
      (CurrResult.failure "down") (fun _ => CurrResult.failure "down2")
      ["USD-BRL"] 1000 (by decide) (by decide) (by decide)).1⟩

/-- The keyword-detector fold only appends an integration id after checking it
is not already present, so it preserves duplicate-freedom of the
accumulator. -/
theorem nodup_detect_foldl (q : String × List String → Bool) :
    ∀ (l : List (String × List String)) (acc : List String), acc.Nodup →
      (l.foldl (fun d e => if q e && !(d.contains e.1) then d ++ [e.1] else d)
        acc).Nodup := by
  intro l
  induction l with
  | nil => intro acc h; exact h
  | cons e rest ih =>
      intro acc h
      simp only [List.foldl_cons]
      by_cases hq : (q e && !(acc.contains e.1)) = true
      · rw [if_pos hq]
        apply ih
        have hmem : e.1 ∉ acc := by
          intro hin
          simp [hin] at hq
        simp [List.nodup_append, h, hmem]
      · rw [if_neg hq]; exact ih acc h

/-- The keyword detector returns a duplicate-free list. -/
theorem detect_integrations_nodup (prompt : String) :
    (detect_integrations_from_prompt prompt).Nodup := by
  unfold detect_integrations_from_prompt
  exact nodup_detect_foldl
    (fun e => e.2.any (fun kw => strIn kw (pyLower prompt))) keyword_map [] List.nodup_nil

/-- C2: `agent_intent` always returns a duplicate-free `integrations` list;
on a parsed model response it is (as a set) the union of the lowercased
model-declared integrations and the keyword-detected ones, and on gateway
failure it is exactly the keyword-detected list. -/
theorem C2_integrations_always_union (env : Env) (prompt : String)
    (gw : GenOutcome IntentResp) :
    (agent_intent env prompt gw).integrations.Nodup ∧
    (∀ r, gw = GenOutcome.ok r →
      ∀ s, s ∈ (agent_intent env prompt gw).integrations ↔
        (s ∈ model_declared_integrations r ∨
         s ∈ detect_integrations_from_prompt prompt)) ∧
    (gw = GenOutcome.fail →
      (agent_intent env prompt gw).integrations
        = detect_integrations_from_prompt prompt) := by
  refine ⟨?_, ?_, ?_⟩
  · cases gw with
    | ok r => simp [agent_intent, pySetList, List.nodup_dedup]
    | fail =>
        by_cases hd : (detect_integrations_from_prompt prompt).isEmpty = true
        · simp [agent_intent, hd, get_default_intent]
        · simpa [agent_intent, hd] using detect_integrations_nodup prompt
  · intro r hr s
    subst hr
    simp [agent_intent, pySetList, List.mem_dedup, List.mem_append]
  · intro hf
    subst hf
    by_cases hd : (detect_integrations_from_prompt prompt).isEmpty = true
    · have hnil : detect_integrations_from_prompt prompt = [] :=
        List.isEmpty_iff.mp hd
      simp [agent_intent, hd, get_default_intent, hnil]
    · simp [agent_intent, hd]

/-- C2 witness: the gateway-failure branch at a concrete prompt. -/
theorem C2_integrations_always_union_witness :
    (agent_intent (fun _ => false : Env) "envie pelo telegram"
        GenOutcome.fail).integrations
      = detect_integrations_from_prompt "envie pelo telegram" :=
  (C2_integrations_always_union (fun _ => false : Env) "envie pelo telegram"
    GenOutcome.fail).2.2 rfl

/-- C3 counterexample: a parsed model response declaring
`needs_credentials: true` with no integrations, on a prompt with no keyword
matches, yields an intent with `needs_credentials = true` although its
`required_credentials` list is empty — no resolved integration declares any
required key, refuting the claimed "never true" direction. -/
theorem C3_needs_credentials_counterexample :
    (agent_intent (fun _ => false : Env) "xyz"
        (GenOutcome.ok { integrations := JsonList.ok [],
                         needs_credentials := some true })).needs_credentials = true ∧
    (agent_intent (fun _ => false : Env) "xyz"
        (GenOutcome.ok { integrations := JsonList.ok [],
                         needs_credentials := some true })).required_credentials = [] := by
  decide

/-- C3 amended: `needs_credentials` is forced to true whenever some resolved
integration has at least one required key; on the gateway-failure fallback the
claimed iff holds exactly; but on a parsed response with no key-bearing
integrations the field keeps the model-declared value (false only by
default), so the "never true" direction fails. -/
theorem C3_needs_credentials_amended (env : Env) (prompt : String)
    (gw : GenOutcome IntentResp) :
    ((agent_intent env prompt gw).required_credentials.any
        (fun c => !c.keys.isEmpty) = true →
      (agent_intent env prompt gw).needs_credentials = true) ∧
    (gw = GenOutcome.fail →
      (agent_intent env prompt gw).needs_credentials
        = (agent_intent env prompt gw).required_credentials.any
            (fun c => !c.keys.isEmpty)) ∧
    (∀ r, gw = GenOutcome.ok r →
      (agent_intent env prompt gw).required_credentials.any
          (fun c => !c.keys.isEmpty) = false →
      (agent_intent env prompt gw).needs_credentials
        = r.needs_credentials.getD false) := by
  refine ⟨?_, ?_, ?_⟩
  · intro h
    cases gw with
    | ok r =>
        by_cases ha : (pySetList (model_declared_integrations r ++
            detect_integrations_from_prompt prompt)).isEmpty = true
        · simp [agent_intent, ha] at h
        · simp [agent_intent, ha] at h ⊢
          simp [h]
    | fail =>
        by_cases hd : (detect_integrations_from_prompt prompt).isEmpty = true
        · simp [agent_intent, hd, get_default_intent] at h
        · simp [agent_intent, hd] at h ⊢
          exact h
  · intro hf
    subst hf
    by_cases hd : (detect_integrations_from_prompt prompt).isEmpty = true
    · simp [agent_intent, hd, get_default_intent]
    · simp [agent_intent, hd]
  · intro r hr h
    subst hr
    by_cases ha : (pySetList (model_declared_integrations r ++
        detect_integrations_from_prompt prompt)).isEmpty = true
    · simp [agent_intent, ha]
    · simp only [agent_intent] at h ⊢
      rw [h]
      simp

/-- C3 amended witness: on the fallback path for a prompt mentioning
Telegram, the resolved telegram integration declares keys, so
`needs_credentials` is forced to true. -/
theorem C3_needs_credentials_amended_witness :
    (agent_intent (fun _ => false : Env) "telegram"
        GenOutcome.fail).needs_credentials = true :=
  (C3_needs_credentials_amended (fun _ => false : Env) "telegram"
    GenOutcome.fail).1 (by decide)

/-- C6 counterexample: a parsed response with `approved: false` and no
`errors`, `score` or `recommendation` ends with score 0, not a score in
[40,55]: the score 55 is computed but then discarded when
`result.get("errors", [...])[0]` raises IndexError on the empty defaulted
errors list, and the fallback default validation (rejected, score 0) is
returned instead. -/
theorem C6_default_score_counterexample :
    (agent_architect { name := "f", description := "", nodes := [], connections := [] }
        (GenOutcome.ok { approved := some false })).score = 0 := by
  decide

/-- C6 amended: when the parsed response lacks `score`, the derived score is
85 minus 10 for more than two warnings and minus 5 for more than eight nodes,
clamped to [60,100], when `approved` resolves to true; when it resolves to
false the score is 55 for at most one error and 40 otherwise — but only if
the defaulted errors list is non-empty or a recommendation is present;
otherwise the IndexError path discards the response and the default
validation from the structural check is returned. -/
theorem C6_default_score_amended (flow : Flow) (r : ArchResp)
    (hscore : r.score = none) :
    (r.approved.getD (structuralApproved flow.nodes) = true →
      (agent_architect flow (GenOutcome.ok r)).score
        = max 60 (min 100 (85 - (if 2 < (r.warnings.getD []).length then 10 else 0)
            - (if 8 < flow.nodes.length then 5 else 0)))) ∧
    (r.approved.getD (structuralApproved flow.nodes) = false →
      (r.errors.getD [] ≠ [] ∨ r.recommendation ≠ none) →
      (agent_architect flow (GenOutcome.ok r)).score
        = (if (r.errors.getD []).length ≤ 1 then 55 else 40)) ∧
    (r.approved.getD (structuralApproved flow.nodes) = false →
      r.errors.getD [] = [] → r.recommendation = none →
      agent_architect flow (GenOutcome.ok r)
        = get_default_validation (structuralApproved flow.nodes)) := by
  refine ⟨?_, ?_, ?_⟩
  · intro happr
    simp [agent_architect, hscore, happr]
  · intro happr hne
    rcases hne with hne | hne
    · have hie : (r.errors.getD []).isEmpty = false := by
        simpa [List.isEmpty_iff] using hne
      simp [agent_architect, hscore, happr, hie]
    · have hin : r.recommendation.isNone = false := by
        cases hv : r.recommendation with
        | none => exact absurd hv hne
        | some v => rfl
      simp [agent_architect, hscore, happr, hin]
  · intro happr herr hrec
    have hie : (r.errors.getD []).isEmpty = true := by simp [List.isEmpty_iff, herr]
    simp [agent_architect, hscore, happr, hie, hrec]

/-- C6 amended witness: the approved branch at a concrete response with no
warnings on the 3-node default flow gives score 85. -/
theorem C6_default_score_amended_witness :
    (agent_architect (get_default_flow get_default_intent)
        (GenOutcome.ok { approved := some true })).score = 85 := by
  rw [(C6_default_score_amended (get_default_flow get_default_intent)
      { approved := some true } rfl).1 rfl]
  decide

/-- `repointLastNext` only rewires `next` pointers: node types are
untouched. -/
theorem repointLastNext_types : ∀ l : List BNode,
    (repointLastNext l).map (fun n => n.type) = l.map (fun n => n.type)
  | [] => rfl
  | [n] => by by_cases h : n.next.isSome = true <;> simp [repointLastNext, h]
  | n :: m :: rest => by
      have ih := repointLastNext_types (m :: rest)
      simpa [repointLastNext] using ih

theorem repointLastNext_length (l : List BNode) :
    (repointLastNext l).length = l.length := by
  have h := congrArg List.length (repointLastNext_types l)
  simpa using h

theorem flowHasType_eq_types_any (ty : String) : ∀ l : List BNode,
    flowHasType l ty = (l.map (fun n => n.type)).any (fun t => decide (t = some ty))
  | [] => rfl
  | n :: rest => by
      have ih := flowHasType_eq_types_any ty rest
      simp only [flowHasType] at ih
      simp only [flowHasType, List.map_cons, List.any_cons, ih]

theorem flowHasType_repoint (l : List BNode) (ty : String) :
    flowHasType (repointLastNext l) ty = flowHasType l ty := by
  rw [flowHasType_eq_types_any ty (repointLastNext l), flowHasType_eq_types_any ty l,
    repointLastNext_types]

theorem flowHasType_append (l1 l2 : List BNode) (ty : String) :
    flowHasType (l1 ++ l2) ty = (flowHasType l1 ty || flowHasType l2 ty) := by
  simp [flowHasType]

theorem flowHasType_cons (n : BNode) (l : List BNode) (ty : String) :
    flowHasType (n :: l) ty = (decide (n.type = some ty) || flowHasType l ty) := by
  simp [flowHasType]

/-- A list with a trigger-typed node and an output-typed node has at least
two nodes: one node cannot have both types. -/
theorem two_le_length_of_trigger_output : ∀ l : List BNode,
    flowHasType l "trigger" = true → flowHasType l "output" = true → 2 ≤ l.length
  | [], ht, _ => by simp [flowHasType] at ht
  | [n], ht, ho => by
      simp [flowHasType] at ht ho
      rw [ht] at ho
      simp at ho
  | _ :: _ :: _, _, _ => by simp

/-- C1 counterexample: a parsed builder response whose nodes are exactly one
trigger node and one output node passes both structural checks untouched, so
the returned flow has only two nodes, refuting the claimed "at least 3 nodes
for every gateway outcome". -/
theorem C1_node_count_counterexample :
    (agent_builder get_default_intent
        (GenOutcome.ok { nodes := NodesField.ok [
          { id := some "a", type := some "trigger" },
          { id := some "b", type := some "output" }] })).nodes.length = 2 := by
  decide

/-- C1 amended: for every gateway outcome, the flow returned by
`agent_builder` has at least one trigger-type node, at least one output-type
node, and at least 2 nodes; the bound 3 holds on the forced-fallback path,
where exactly the 3-node default flow is returned, but a parsed response
already containing a trigger and an output node can keep only 2 nodes. -/
theorem C1_builder_structure_amended (intent : Intent) (gw : GenOutcome BuilderResp) :
    flowHasType (agent_builder intent gw).nodes "trigger" = true ∧
    flowHasType (agent_builder intent gw).nodes "output" = true ∧
    2 ≤ (agent_builder intent gw).nodes.length ∧
    (gw = GenOutcome.fail → agent_builder intent gw = get_default_flow intent) ∧
    (∀ r, gw = GenOutcome.ok r →
      (r.nodes = NodesField.missing ∨ r.nodes = NodesField.notList ∨
       r.nodes = NodesField.ok []) →
      agent_builder intent gw = get_default_flow intent) ∧
    (get_default_flow intent).nodes.length = 3 := by
  have hdef_t : flowHasType (get_default_flow intent).nodes "trigger" = true := by
    simp [get_default_flow, flowHasType]
  have hdef_o : flowHasType (get_default_flow intent).nodes "output" = true := by
    simp [get_default_flow, flowHasType]
  have hdef_len : (get_default_flow intent).nodes.length = 3 := by
    simp [get_default_flow]
  cases gw with
  | fail =>
      refine ⟨hdef_t, hdef_o, ?_, fun _ => rfl, ?_, hdef_len⟩
      · show 2 ≤ (get_default_flow intent).nodes.length
        omega
      · intro r hr; cases hr
  | ok r =>
      obtain ⟨rn, rd, rns, rc⟩ := r
      cases rns with
      | missing =>
          refine ⟨hdef_t, hdef_o, ?_, ?_, ?_, hdef_len⟩
          · show 2 ≤ (get_default_flow intent).nodes.length
            omega
          · intro h; cases h
          · intro r hr hcase; rfl
      | notList =>
          refine ⟨hdef_t, hdef_o, ?_, ?_, ?_, hdef_len⟩
          · show 2 ≤ (get_default_flow intent).nodes.length
            omega
          · intro h; cases h
          · intro r hr hcase; rfl
      | ok l =>
          cases l with
          | nil =>
              refine ⟨hdef_t, hdef_o, ?_, ?_, ?_, hdef_len⟩
              · show 2 ≤ (get_default_flow intent).nodes.length
                omega
              · intro h; cases h
              · intro r hr hcase; rfl
          | cons n0 rest =>
              refine ⟨?_, ?_, ?_, ?_, ?_, hdef_len⟩
              · show flowHasType
                  (if flowHasType (n0 :: rest) "output" = true then
                    (if flowHasType (n0 :: rest) "trigger" = true then n0 :: rest
                     else builder_trigger_node n0.id :: n0 :: rest)
                  else repointLastNext
                    (if flowHasType (n0 :: rest) "trigger" = true then n0 :: rest
                     else builder_trigger_node n0.id :: n0 :: rest)
                    ++ [builder_output_node]) "trigger" = true
                by_cases ht : flowHasType (n0 :: rest) "trigger" = true <;>
                by_cases ho : flowHasType (n0 :: rest) "output" = true
                · rw [if_pos ho, if_pos ht]; exact ht
                · rw [if_neg ho, if_pos ht, flowHasType_append, flowHasType_repoint, ht]
                  simp
                · rw [if_pos ho, if_neg ht, flowHasType_cons]
                  simp [builder_trigger_node]
                · rw [if_neg ho, if_neg ht, flowHasType_append, flowHasType_repoint,
                    flowHasType_cons]
                  simp [builder_trigger_node]
              · show flowHasType
                  (if flowHasType (n0 :: rest) "output" = true then
                    (if flowHasType (n0 :: rest) "trigger" = true then n0 :: rest
                     else builder_trigger_node n0.id :: n0 :: rest)
                  else repointLastNext
                    (if flowHasType (n0 :: rest) "trigger" = true then n0 :: rest
                     else builder_trigger_node n0.id :: n0 :: rest)
                    ++ [builder_output_node]) "output" = true
                by_cases ht : flowHasType (n0 :: rest) "trigger" = true <;>
                by_cases ho : flowHasType (n0 :: rest) "output" = true
                · rw [if_pos ho, if_pos ht]; exact ho
                · rw [if_neg ho, if_pos ht, flowHasType_append]
                  simp [flowHasType, builder_output_node]
                · rw [if_pos ho, if_neg ht, flowHasType_cons]
                  simp [builder_trigger_node, ho]
                · rw [if_neg ho, if_neg ht, flowHasType_append]
                  simp [flowHasType, builder_output_node]
              · show 2 ≤ (if flowHasType (n0 :: rest) "output" = true then
                    (if flowHasType (n0 :: rest) "trigger" = true then n0 :: rest
                     else builder_trigger_node n0.id :: n0 :: rest)
                  else repointLastNext
                    (if flowHasType (n0 :: rest) "trigger" = true then n0 :: rest
                     else builder_trigger_node n0.id :: n0 :: rest)
                    ++ [builder_output_node]).length
                by_cases ht : flowHasType (n0 :: rest) "trigger" = true <;>
                by_cases ho : flowHasType (n0 :: rest) "output" = true
                · rw [if_pos ho, if_pos ht]
                  exact two_le_length_of_trigger_output (n0 :: rest) ht ho
                · rw [if_neg ho, if_pos ht]
                  simp only [List.length_append, List.length_cons,
                    repointLastNext_length]
                  omega
                · rw [if_pos ho, if_neg ht]
                  simp only [List.length_cons]
                  omega
                · rw [if_neg ho, if_neg ht]
                  simp only [List.length_append, List.length_cons,
                    repointLastNext_length]
                  omega
              · intro h; cases h
              · intro r hr hcase
                cases hr
                rcases hcase with h | h | h <;> simp at h

/-- C1 amended witness: the gateway-failure path returns exactly the default
flow. -/
theorem C1_builder_structure_amended_witness :
    agent_builder get_default_intent GenOutcome.fail
      = get_default_flow get_default_intent :=
  (C1_builder_structure_amended get_default_intent GenOutcome.fail).2.2.2.1 rfl

/-- No branch of the reconciler loop ever resets `all_valid` to true. -/
theorem vi_step_preserves_false {A : Type} (env : Env) (curr : CurrResult A)
    (tg : TelegramProbe) (st : ValidationResults) (i : String)
    (h : st.all_valid = false) :
    (validate_integrations_step env curr tg st i).all_valid = false := by
  unfold validate_integrations_step
  split_ifs
  · cases curr <;> simp [h]
  · simp
  · cases tg <;> simp [h]
  · exact h

/-- Every branch of the reconciler loop only appends to `details`. -/
theorem vi_step_preserves_detail {A : Type} (env : Env) (curr : CurrResult A)
    (tg : TelegramProbe) (st : ValidationResults) (i : String)
    (d : IntegrationDetail) (h : d ∈ st.details) :
    d ∈ (validate_integrations_step env curr tg st i).details := by
  unfold validate_integrations_step
  split_ifs
  · cases curr <;> simp [h]
  · simp [h]
  · cases tg <;> simp [h]
  · exact h

theorem vi_foldl_preserves_false {A : Type} (env : Env) (curr : CurrResult A)
    (tg : TelegramProbe) : ∀ (l : List String) (st : ValidationResults),
    st.all_valid = false →
    (l.foldl (validate_integrations_step env curr tg) st).all_valid = false := by
  intro l
  induction l with
  | nil => intro st h; exact h
  | cons i rest ih =>
      intro st h
      simp only [List.foldl_cons]
      exact ih _ (vi_step_preserves_false env curr tg st i h)

theorem vi_foldl_preserves_detail {A : Type} (env : Env) (curr : CurrResult A)
    (tg : TelegramProbe) (d : IntegrationDetail) :
    ∀ (l : List String) (st : ValidationResults),
    d ∈ st.details →
    d ∈ (l.foldl (validate_integrations_step env curr tg) st).details := by
  intro l
  induction l with
  | nil => intro st h; exact h
  | cons i rest ih =>
      intro st h
      simp only [List.foldl_cons]
      exact ih _ (vi_step_preserves_detail env curr tg st i d h)

/-- The `telegram` iteration with a missing credential marks the run invalid
and records the configuration-error detail. -/
theorem vi_step_telegram_missing {A : Type} (env : Env) (curr : CurrResult A)
    (tg : TelegramProbe) (st : ValidationResults)
    (hcred : env "TELEGRAM_BOT_TOKEN" = false ∨ env "TELEGRAM_CHAT_ID" = false) :
    (validate_integrations_step env curr tg st "telegram").all_valid = false ∧
    telegram_missing_detail
      ∈ (validate_integrations_step env curr tg st "telegram").details := by
  have hguard : (!(env "TELEGRAM_BOT_TOKEN") || !(env "TELEGRAM_CHAT_ID")) = true := by
    rcases hcred with h | h <;> simp [h]
  simp [validate_integrations_step, hguard]

/-- Running the reconciler over any integration list containing `telegram`
with a missing credential yields `all_valid = false` and the
configuration-error detail. -/
theorem vi_foldl_telegram_missing {A : Type} (env : Env) (curr : CurrResult A)
    (tg : TelegramProbe)
    (hcred : env "TELEGRAM_BOT_TOKEN" = false ∨ env "TELEGRAM_CHAT_ID" = false) :
    ∀ (l : List String) (st : ValidationResults), "telegram" ∈ l →
    (l.foldl (validate_integrations_step env curr tg) st).all_valid = false ∧
    telegram_missing_detail
      ∈ (l.foldl (validate_integrations_step env curr tg) st).details := by
  intro l
  induction l with
  | nil => intro st h; cases h
  | cons i rest ih =>
      intro st hmem
      rcases List.mem_cons.mp hmem with hi | hi
      · subst hi
        simp only [List.foldl_cons]
        have hstep := vi_step_telegram_missing env curr tg st hcred
        exact ⟨vi_foldl_preserves_false env curr tg rest _ hstep.1,
               vi_foldl_preserves_detail env curr tg _ rest _ hstep.2⟩
      · simp only [List.foldl_cons]
        exact ih _ hi

/-- C5: with `telegram` among the declared integrations and a Telegram
credential unset, the reconciler records the configuration-error detail and
invalidates the check, the merge appends the error message to the
validation's errors while leaving `approved` exactly as the architect decided
it, and an architect-approved flow still produces an "approved" response
whose validation carries the Telegram configuration error in its
`integration_status`. -/
theorem C5_telegram_error_keeps_approval {A : Type} (env : Env)
    (curr : CurrResult A) (tg : TelegramProbe) (intent : Intent) (flow : Flow)
    (validation : Validation)
    (hmem : "telegram" ∈ intent.integrations)
    (hcred : env "TELEGRAM_BOT_TOKEN" = false ∨ env "TELEGRAM_CHAT_ID" = false) :
    (mergeValidation validation
        (validate_integrations env curr tg intent.integrations)).approved
      = validation.approved ∧
    "Credenciais não configuradas"
      ∈ (mergeValidation validation
          (validate_integrations env curr tg intent.integrations)).errors ∧
    telegram_missing_detail
      ∈ (validate_integrations env curr tg intent.integrations).details ∧
    (validation.approved = true →
      (generate_flow_finish env curr tg intent flow validation).status
        = "approved" ∧
      telegram_missing_detail
        ∈ (generate_flow_finish env curr tg intent flow
            validation).integrationStatus) := by
  have hmain := vi_foldl_telegram_missing env curr tg hcred intent.integrations
    { all_valid := true, details := [], warnings := [], fixes_applied := [] } hmem
  have hvalid : (validate_integrations env curr tg intent.integrations).all_valid
      = false := hmain.1
  have hdetail : telegram_missing_detail
      ∈ (validate_integrations env curr tg intent.integrations).details := hmain.2
  refine ⟨rfl, ?_, hdetail, ?_⟩
  · simp only [mergeValidation, hvalid, if_false, Bool.false_eq_true]
    apply List.mem_append_right
    apply List.mem_map.mpr
    refine ⟨_, List.mem_filter.mpr ⟨hdetail, by decide⟩, rfl⟩
  · intro happr
    have hap2 : (mergeValidation validation
        (validate_integrations env curr tg intent.integrations)).approved = true := by
      simpa [mergeValidation] using happr
    constructor
    · simp [generate_flow_finish, hap2, GenFlowResponse.status]
    · simp only [generate_flow_finish, hap2, if_true]
      simpa [GenFlowResponse.integrationStatus] using hdetail

/-- C5 witness: the scenario prompt's integrations with everything unset and
the currency provider down, on an approved validation. -/
theorem C5_telegram_error_keeps_approval_witness :
    (generate_flow_finish (fun _ => false : Env)
        (CurrResult.failure "down" : CurrResult String)
        (TelegramProbe.botOk "bot")
        { objective := "Buscar cotação USD e enviar via bot Telegram",
          output_type := "message",
          integrations := ["currency_api", "telegram"],
          needs_credentials := true, required_credentials := [],
          summary := "cotação por telegram" }
        (get_default_flow get_default_intent)
        { approved := true, errors := [], warnings := [], score := 85,
          recommendation := "ok" }).status = "approved" :=
  ((C5_telegram_error_keeps_approval (fun _ => false : Env)
      (CurrResult.failure "down" : CurrResult String) (TelegramProbe.botOk "bot")
      { objective := "Buscar cotação USD e enviar via bot Telegram",
        output_type := "message",
        integrations := ["currency_api", "telegram"],
        needs_credentials := true, required_credentials := [],
        summary := "cotação por telegram" }
      (get_default_flow get_default_intent)
      { approved := true, errors := [], warnings := [], score := 85,
        recommendation := "ok" }
      (by decide) (Or.inl rfl)).2.2.2 rfl).1

/-- C7: a create-automation request whose intent declares a required
credential key that is absent from the environment is answered with the
missing-credentials failure listing exactly the missing keys, and the whole
process state — the in-memory registry, the persisted automations file, the
scheduler job table, and the currency cache — is returned unchanged: no id is
allocated, no job is registered and nothing is executed. -/
theorem C7_create_rejection_atomic {A : Type} (env : Env) (bcb : CurrResult A)
    (awesome : List String → CurrResult A) (tgNet : TgSendNet)
    (nowStamp nowIso : String) (now : Int) (st : AppState A) (req : CreateReq)
    (f : ReqFlow) (hflow : req.flow = some f)
    (hmiss : missing_credential_keys env req.intent.required_credentials ≠ []) :
    create_automation env bcb awesome tgNet nowStamp nowIso now st req
      = (CreateResp.badRequestMissingCreds
          (missing_credential_keys env req.intent.required_credentials), st) := by
  have hne : (missing_credential_keys env
      req.intent.required_credentials).isEmpty = false := by
    simpa [List.isEmpty_iff] using hmiss
  simp [create_automation, hflow, hne]

/-- C7 witness: a request declaring the Telegram credential keys against an
empty environment is rejected with both keys listed and the state intact. -/
theorem C7_create_rejection_atomic_witness :
    create_automation (fun _ => false : Env)
      (CurrResult.failure "down" : CurrResult String)
      (fun _ => CurrResult.failure "down") TgSendNet.ok
      "20240101000000" "2024-01-01T00:00:00" 0
      { active := [], savedFile := [], jobs := [],
        cache := initialCurrencyCache String }
      { flow := some {},
        intent :=
          { required_credentials :=
              [{ integration := "telegram", name := "Telegram Bot",
                 keys := ["TELEGRAM_BOT_TOKEN", "TELEGRAM_CHAT_ID"],
                 configured := false }],
            integrations := ["telegram"] } }
      = (CreateResp.badRequestMissingCreds
          (missing_credential_keys (fun _ => false : Env)
            [{ integration := "telegram", name := "Telegram Bot",
               keys := ["TELEGRAM_BOT_TOKEN", "TELEGRAM_CHAT_ID"],
               configured := false }]),
         { active := [], savedFile := [], jobs := [],
           cache := initialCurrencyCache String }) :=
  C7_create_rejection_atomic (fun _ => false : Env)
    (CurrResult.failure "down" : CurrResult String)
    (fun _ => CurrResult.failure "down") TgSendNet.ok
    "20240101000000" "2024-01-01T00:00:00" 0
    { active := [], savedFile := [], jobs := [],
      cache := initialCurrencyCache String }
    { flow := some {},
      intent :=
        { required_credentials :=
            [{ integration := "telegram", name := "Telegram Bot",
               keys := ["TELEGRAM_BOT_TOKEN", "TELEGRAM_CHAT_ID"],
               configured := false }],
          integrations := ["telegram"] } }
    {} rfl (by decide)

/-! ### Sorting lemmas shared by the import/export round-trip and the
project executor -/

theorem insertNodeByX_of_le {C : Type} (n : DBNode C) : ∀ l : List (DBNode C),
    (∀ m ∈ l, n.position_x ≤ m.position_x) → insertNodeByX n l = n :: l
  | [], _ => rfl
  | m :: ms, h => by
      simp only [insertNodeByX]
      rw [if_pos (h m (List.mem_cons_self m ms))]

theorem sortNodesByX_of_sorted {C : Type} : ∀ l : List (DBNode C),
    List.Pairwise (fun a b => a.position_x ≤ b.position_x) l → sortNodesByX l = l
  | [], _ => rfl
  | n :: ns, h => by
      have ih := sortNodesByX_of_sorted ns h.of_cons
      simp only [sortNodesByX, ih]
      exact insertNodeByX_of_le n ns (fun m hm => List.rel_of_pairwise_cons h hm)

theorem insertNodeByX_perm {C : Type} (n : DBNode C) : ∀ l : List (DBNode C),
    (insertNodeByX n l).Perm (n :: l)
  | [] => List.Perm.refl _
  | m :: ms => by
      simp only [insertNodeByX]
      by_cases h : n.position_x ≤ m.position_x
      · rw [if_pos h]
      · rw [if_neg h]
        exact ((insertNodeByX_perm n ms).cons m).trans (List.Perm.swap n m ms)

theorem sortNodesByX_perm {C : Type} : ∀ l : List (DBNode C),
    (sortNodesByX l).Perm l
  | [] => List.Perm.refl _
  | n :: ns => by
      simp only [sortNodesByX]
      exact (insertNodeByX_perm n (sortNodesByX ns)).trans
        ((sortNodesByX_perm ns).cons n)

theorem insertNodeByX_sorted {C : Type} (n : DBNode C) : ∀ l : List (DBNode C),
    List.Pairwise (fun a b => a.position_x ≤ b.position_x) l →
    List.Pairwise (fun a b => a.position_x ≤ b.position_x) (insertNodeByX n l)
  | [], _ => by simp [insertNodeByX]
  | m :: ms, h => by
      simp only [insertNodeByX]
      by_cases hle : n.position_x ≤ m.position_x
      · rw [if_pos hle]
        refine List.Pairwise.cons ?_ h
        intro b hb
        rcases List.mem_cons.mp hb with hb | hb
        · subst hb; exact hle
        · exact le_trans hle (List.rel_of_pairwise_cons h hb)
      · rw [if_neg hle]
        refine List.Pairwise.cons ?_ (insertNodeByX_sorted n ms h.of_cons)
        intro b hb
        have hb2 := (insertNodeByX_perm n ms).mem_iff.mp hb
        rcases List.mem_cons.mp hb2 with hb2 | hb2
        · subst hb2; exact le_of_not_le hle
        · exact List.rel_of_pairwise_cons h hb2

theorem sortNodesByX_sorted {C : Type} : ∀ l : List (DBNode C),
    List.Pairwise (fun a b => a.position_x ≤ b.position_x) (sortNodesByX l)
  | [] => List.Pairwise.nil
  | n :: ns => by
      simp only [sortNodesByX]
      exact insertNodeByX_sorted n (sortNodesByX ns) (sortNodesByX_sorted ns)

/-! ### Import/export lemmas -/

theorem import_nodes_from_length : ∀ (i : Nat) (l : List BNode),
    (import_nodes_from i l).length = l.length
  | _, [] => rfl
  | i, n :: rest => by
      simp [import_nodes_from, import_nodes_from_length (i + 1) rest]

theorem import_nodes_from_ids : ∀ (i : Nat) (l : List BNode),
    (∀ n ∈ l, ∃ s, n.id = some s ∧ s ≠ "") →
    (import_nodes_from i l).map (fun n => n.node_id)
      = l.map (fun n => n.id.getD "")
  | _, [], _ => rfl
  | i, n :: rest, h => by
      obtain ⟨s, hs, _⟩ := h n (List.mem_cons_self n rest)
      simp [import_nodes_from, import_node, hs,
        import_nodes_from_ids (i + 1) rest
          (fun m hm => h m (List.mem_cons_of_mem n hm))]

theorem import_nodes_from_pos_lb : ∀ (i : Nat) (l : List BNode)
    (m : DBNode (List (String × Option String))),
    m ∈ import_nodes_from i l → 150 + 250 * (i : Int) ≤ m.position_x
  | _, [], m, hm => by cases hm
  | i, n :: rest, m, hm => by
      rcases List.mem_cons.mp hm with h | h
      · subst h; simp [import_node]
      · have hlb := import_nodes_from_pos_lb (i + 1) rest m h
        push_cast at hlb ⊢
        omega

theorem import_nodes_from_sorted : ∀ (i : Nat) (l : List BNode),
    List.Pairwise (fun a b => a.position_x ≤ b.position_x)
      (import_nodes_from i l)
  | _, [] => List.Pairwise.nil
  | i, n :: rest => by
      refine List.Pairwise.cons ?_ (import_nodes_from_sorted (i + 1) rest)
      intro m hm
      have hlb := import_nodes_from_pos_lb (i + 1) rest m hm
      simp only [import_node]
      push_cast at hlb ⊢
      omega

theorem hasPair_cons (e : DBEdge) (es : List DBEdge) (a b : String) :
    hasPair (e :: es) a b
      = (decide (e.source_node_id = a ∧ e.target_node_id = b) || hasPair es a b) := by
  simp [hasPair]

theorem hasPair_append_one (es : List DBEdge) (e : DBEdge) (a b : String) :
    hasPair (es ++ [e]) a b
      = (hasPair es a b || decide (e.source_node_id = a ∧ e.target_node_id = b)) := by
  simp [hasPair]

theorem hasPair_import_explicit : ∀ (i : Nat) (conns : List Connection)
    (a b : String),
    (∀ c ∈ conns, (∃ s, c.src = some s ∧ s ≠ "") ∧ (∃ t, c.dst = some t ∧ t ≠ "")) →
    hasPair (import_explicit_edges i conns) a b
      = conns.any (fun c => decide (c.src = some a ∧ c.dst = some b))
  | _, [], _, _, _ => rfl
  | i, c :: rest, a, b, h => by
      obtain ⟨⟨s, hs, hsne⟩, ⟨t, ht, htne⟩⟩ := h c (List.mem_cons_self c rest)
      have ih := hasPair_import_explicit (i + 1) rest a b
        (fun d hd => h d (List.mem_cons_of_mem c hd))
      simp only [import_explicit_edges, hs, ht]
      rw [if_pos ⟨hsne, htne⟩, hasPair_cons, ih]
      simp [hs, ht, List.any_cons]

theorem bool_or_and_merge : ∀ e a x r : Bool,
    ((e || (a && x)) || (a && r)) = (e || (a && (x || r))) := by
  decide

theorem hasPair_add_next_list (nid : String) : ∀ (ns : List String) (j : Nat)
    (es : List DBEdge) (a b : String),
    (∀ x ∈ ns, x ≠ "") →
    hasPair (add_next_edge_list nid j ns es) a b
      = (hasPair es a b ||
         (decide (nid = a) && ns.any (fun x => decide (x = b))))
  | [], _, es, a, b, _ => by simp [add_next_edge_list]
  | x :: rest, j, es, a, b, h => by
      have hx : x ≠ "" := h x (List.mem_cons_self x rest)
      have htl : ∀ y ∈ rest, y ≠ "" := fun y hy => h y (List.mem_cons_of_mem x hy)
      by_cases hp : hasPair es nid x = true
      · rw [add_next_edge_list, if_neg (by simp [hp]),
          hasPair_add_next_list nid rest (j + 1) es a b htl]
        by_cases hna : nid = a
        · by_cases hxb : x = b
          · subst hna; subst hxb
            simp [List.any_cons, hp]
          · simp [List.any_cons, hxb]
        · simp [List.any_cons, hna]
      · rw [add_next_edge_list, if_pos ⟨hx, by simpa using hp⟩,
          hasPair_add_next_list nid rest (j + 1) _ a b htl,
          hasPair_append_one]
        simp only [List.any_cons, Bool.decide_and]
        exact bool_or_and_merge (hasPair es a b) (decide (nid = a))
          (decide (x = b)) (rest.any (fun y => decide (y = b)))

theorem hasPair_add_next_all : ∀ (ns : List BNode) (es : List DBEdge)
    (a b : String),
    (∀ n ∈ ns, (∃ s, n.id = some s ∧ s ≠ "") ∧ (∀ x ∈ n.next.getD [], x ≠ "")) →
    hasPair (ns.foldl add_next_edges_for_node es) a b
      = (hasPair es a b ||
         ns.any (fun n => decide (n.id = some a) &&
           (n.next.getD []).any (fun x => decide (x = b))))
  | [], es, a, b, _ => by simp
  | n :: rest, es, a, b, h => by
      obtain ⟨⟨s, hs, hsne⟩, hnx⟩ := h n (List.mem_cons_self n rest)
      have ih := hasPair_add_next_all rest (add_next_edges_for_node es n) a b
        (fun m hm => h m (List.mem_cons_of_mem n hm))
      simp only [List.foldl_cons]
      rw [ih,
        show add_next_edges_for_node es n = add_next_edge_list s 0 (n.next.getD []) es
          from by simp [add_next_edges_for_node, hs, hsne],
        hasPair_add_next_list s (n.next.getD []) 0 es a b hnx]
      simp only [List.any_cons, hs]
      simp [Bool.or_assoc]

theorem exported_pair_iff (p : Project (List (String × Option String)))
    (a b : String) :
    (∃ c ∈ (to_flow_json p).connections, c.src = a ∧ c.dst = b)
      ↔ hasPair p.edges a b := by
  simp only [to_flow_json, hasPair, List.any_eq_true, decide_eq_true_eq]
  constructor
  · rintro ⟨c, hc, h1, h2⟩
    obtain ⟨e, he, rfl⟩ := List.mem_map.mp hc
    exact ⟨e, he, h1, h2⟩
  · rintro ⟨e, he, h1, h2⟩
    exact ⟨_, List.mem_map.mpr ⟨e, he, rfl⟩, h1, h2⟩

/-- C8: importing a flow document whose node ids, connection endpoints and
successor ids are all present and non-empty, then exporting it back with
`to_flow_json`, preserves the node count, the exact node-id sequence, and the
set of connection (from, to) pairs, which is the union of the explicit
connection pairs and the pairs implied by the nodes' `next` lists. -/
theorem C8_import_export_roundtrip (fd : FlowDoc) (intentSummary : Option String)
    (hids : ∀ n ∈ fd.nodes, ∃ s, n.id = some s ∧ s ≠ "")
    (hnext : ∀ n ∈ fd.nodes, ∀ x ∈ n.next.getD [], x ≠ "")
    (hconns : ∀ c ∈ fd.connections,
      (∃ s, c.src = some s ∧ s ≠ "") ∧ (∃ t, c.dst = some t ∧ t ≠ "")) :
    (to_flow_json (api_import_flow fd intentSummary)).nodes.length
      = fd.nodes.length ∧
    (to_flow_json (api_import_flow fd intentSummary)).nodes.map (fun n => n.id)
      = fd.nodes.map (fun n => n.id.getD "") ∧
    ∀ a b : String,
      (∃ c ∈ (to_flow_json (api_import_flow fd intentSummary)).connections,
          c.src = a ∧ c.dst = b) ↔
      ((∃ c ∈ fd.connections, c.src = some a ∧ c.dst = some b) ∨
       (∃ n ∈ fd.nodes, n.id = some a ∧ b ∈ n.next.getD [])) := by
  have hsortid : sortNodesByX (import_nodes_from 0 fd.nodes)
      = import_nodes_from 0 fd.nodes :=
    sortNodesByX_of_sorted _ (import_nodes_from_sorted 0 fd.nodes)
  refine ⟨?_, ?_, ?_⟩
  · simp [to_flow_json, api_import_flow, hsortid,
      import_nodes_from_length 0 fd.nodes]
  · have hids2 := import_nodes_from_ids 0 fd.nodes hids
    simp only [to_flow_json, api_import_flow, hsortid, List.map_map]
    simpa using hids2
  · intro a b
    rw [exported_pair_iff]
    have hpair : hasPair (api_import_flow fd intentSummary).edges a b
        = ((fd.connections.any (fun c => decide (c.src = some a ∧ c.dst = some b))) ||
           fd.nodes.any (fun n => decide (n.id = some a) &&
             (n.next.getD []).any (fun x => decide (x = b)))) := by
      show hasPair (fd.nodes.foldl add_next_edges_for_node
        (import_explicit_edges 0 fd.connections)) a b = _
      rw [hasPair_add_next_all fd.nodes _ a b
          (fun n hn => ⟨hids n hn, hnext n hn⟩),
        hasPair_import_explicit 0 fd.connections a b hconns]
    rw [hpair]
    simp [List.any_eq_true, decide_eq_true_eq]

/-- C8 witness: round-tripping the default 3-node flow as a flow document. -/
theorem C8_import_export_roundtrip_witness :
    (to_flow_json (api_import_flow
        { name := some "Fluxo padrão", description := some "d",
          nodes := (get_default_flow get_default_intent).nodes,
          connections := (get_default_flow get_default_intent).connections }
        none)).nodes.map (fun n => n.id)
      = (get_default_flow get_default_intent).nodes.map (fun n => n.id.getD "") :=
  (C8_import_export_roundtrip
    { name := some "Fluxo padrão", description := some "d",
      nodes := (get_default_flow get_default_intent).nodes,
      connections := (get_default_flow get_default_intent).connections }
    none (by decide) (by decide) (by decide)).2.1

/-- The executor loop equals the spec-side executor run on the
enabled-filtered list: disabled nodes contribute nothing, everything else is
processed in place. -/
theorem project_exec_nodes_eq_spec {A : Type} (env : Env) (bcb : CurrResult A)
    (awesome : List String → CurrResult A) (tgNet : TgSendNet)
    (render : A → List String) (pname : String) (now : Int) :
    ∀ (l : List (DBNode NodeConfig)) (cache : CurrencyCache A),
    project_exec_nodes env bcb awesome tgNet render pname now l cache
      = spec_exec_enabled_in_order env bcb awesome tgNet render pname now
          (l.filter (fun n => n.is_enabled)) cache
  | [], _ => rfl
  | n :: rest, cache => by
      by_cases he : n.is_enabled = true
      · simp only [project_exec_nodes, he, if_true, List.filter_cons,
          spec_exec_enabled_in_order,
          project_exec_nodes_eq_spec env bcb awesome tgNet render pname now rest]
      · simp only [project_exec_nodes, he, if_false, List.filter_cons,
          Bool.false_eq_true,
          project_exec_nodes_eq_spec env bcb awesome tgNet render pname now rest]

/-- C9: project execution walks the enabled nodes in ascending `position_x`
order (a stable sort of the stored nodes, independent of the edge graph) and
interprets each with the fixed dispatch table: a condition node always
records `true`; a wait node records its configured delay and does nothing
else; a loop node records only its configured iteration count with simulated
iteration strings; an unrecognized type records a no-op acknowledgement; and
a failed currency fetch contributes only an error output line while the rest
of the run continues unchanged. -/
theorem C9_position_ordered_execution {A : Type} (env : Env) (bcb : CurrResult A)
    (awesome : List String → CurrResult A) (tgNet : TgSendNet)
    (render : A → List String) (pname : String) (now : Int) :
    (∀ (nodes : List (DBNode NodeConfig)) (cache : CurrencyCache A),
      (sortNodesByX nodes).Perm nodes ∧
      List.Pairwise (fun a b => a.position_x ≤ b.position_x) (sortNodesByX nodes) ∧
      api_execute_project env bcb awesome tgNet render pname now nodes cache
        = spec_exec_enabled_in_order env bcb awesome tgNet render pname now
            ((sortNodesByX nodes).filter (fun n => n.is_enabled)) cache) ∧
    (∀ (cache : CurrencyCache A) (nid nm cat : String) (px py : Int)
        (cfg : Option NodeConfig),
      project_exec_node env bcb awesome tgNet render pname now cache
        { node_id := nid, name := nm, node_type := "condition",
          node_category := cat, position_x := px, position_y := py,
          config := cfg, is_enabled := true }
        = ([ExecEntry.condition nm true],
           ["[" ++ nm ++ "] Condição avaliada: "
             ++ (cfg.getD {}).condition.getD "true"], cache)) ∧
    (∀ (cache : CurrencyCache A) (nid nm cat : String) (px py : Int)
        (cfg : Option NodeConfig),
      project_exec_node env bcb awesome tgNet render pname now cache
        { node_id := nid, name := nm, node_type := "wait",
          node_category := cat, position_x := px, position_y := py,
          config := cfg, is_enabled := true }
        = ([ExecEntry.wait nm ((cfg.getD {}).seconds.getD 1)],
           ["[" ++ nm ++ "] Aguardando "
             ++ toString ((cfg.getD {}).seconds.getD 1) ++ "s"], cache)) ∧
    (∀ (cache : CurrencyCache A) (nid nm cat : String) (px py : Int)
        (cfg : Option NodeConfig),
      project_exec_node env bcb awesome tgNet render pname now cache
        { node_id := nid, name := nm, node_type := "loop",
          node_category := cat, position_x := px, position_y := py,
          config := cfg, is_enabled := true }
        = ([ExecEntry.loop nm ((cfg.getD {}).count.getD 3)
              ((List.range ((cfg.getD {}).count.getD 3).toNat).map
                (fun i => "Iteração " ++ toString (i + 1)))],
           ["[" ++ nm ++ "] Loop executado "
             ++ toString ((cfg.getD {}).count.getD 3) ++ " vezes"], cache)) ∧
    (∀ (ty : String), ty ≠ "currency" → ty ≠ "telegram" → ty ≠ "loop" →
      ty ≠ "condition" → ty ≠ "wait" → ty ≠ "log" →
      ∀ (cache : CurrencyCache A) (nid nm cat : String) (px py : Int)
        (cfg : Option NodeConfig),
      project_exec_node env bcb awesome tgNet render pname now cache
        { node_id := nid, name := nm, node_type := ty,
          node_category := cat, position_x := px, position_y := py,
          config := cfg, is_enabled := true }
        = ([ExecEntry.generic nm ty "executed"],
           ["[" ++ nm ++ "] Executado (" ++ ty ++ ")"], cache)) ∧
    (∀ (cache : CurrencyCache A) (e : String)
        (nid nm cat : String) (px py : Int) (cfg : Option NodeConfig)
        (rest : List (DBNode NodeConfig)),
      (fetch_currency_rates bcb awesome cache now none).result
        = CurrResult.failure e →
      spec_exec_enabled_in_order env bcb awesome tgNet render pname now
        ({ node_id := nid, name := nm, node_type := "currency",
           node_category := cat, position_x := px, position_y := py,
           config := cfg, is_enabled := true } :: rest) cache
        = ((spec_exec_enabled_in_order env bcb awesome tgNet render pname now
              rest (fetch_currency_rates bcb awesome cache now none).cache).1,
           ("[" ++ nm ++ "] Erro: " ++ e)
             :: (spec_exec_enabled_in_order env bcb awesome tgNet render pname now
                  rest (fetch_currency_rates bcb awesome cache now none).cache).2)) := by
  refine ⟨?_, ?_, ?_, ?_, ?_, ?_⟩
  · intro nodes cache
    exact ⟨sortNodesByX_perm nodes, sortNodesByX_sorted nodes,
      project_exec_nodes_eq_spec env bcb awesome tgNet render pname now
        (sortNodesByX nodes) cache⟩
  · intro cache nid nm cat px py cfg
    rfl
  · intro cache nid nm cat px py cfg
    rfl
  · intro cache nid nm cat px py cfg
    rfl
  · intro ty h1 h2 h3 h4 h5 h6 cache nid nm cat px py cfg
    simp [project_exec_node, h1, h2, h3, h4, h5, h6]
  · intro cache e nid nm cat px py cfg rest hfail
    simp only [spec_exec_enabled_in_order, project_exec_node, if_true, hfail]
    simp

/-- C9 witness: the no-op acknowledgement for an unrecognized node type. -/
theorem C9_position_ordered_execution_witness :
    project_exec_node (fun _ => false : Env)
      (CurrResult.failure "down" : CurrResult String)
      (fun _ => CurrResult.failure "down") TgSendNet.ok (fun _ => [])
      "proj" 0 (initialCurrencyCache String)
      { node_id := "n1", name := "Custom", node_type := "custom",
        node_category := "data", position_x := 0, position_y := 0,
        config := none, is_enabled := true }
      = ([ExecEntry.generic "Custom" "custom" "executed"],
         ["[Custom] Executado (custom)"], initialCurrencyCache String) :=
  (C9_position_ordered_execution (fun _ => false : Env)
    (CurrResult.failure "down" : CurrResult String)
    (fun _ => CurrResult.failure "down") TgSendNet.ok (fun _ => [])
    "proj" 0).2.2.2.2.1 "custom" (by decide) (by decide) (by decide)
    (by decide) (by decide) (by decide) (initialCurrencyCache String)
    "n1" "Custom" "data" 0 0 none

end FlowWeaver
